import Mathlib

/-!
# NootRX: device identification and patch orchestration

A shallow embedding of `NootRX/NootRX.cpp` (`NootRXMain::processPatcher`,
`NootRXMain::setRMMIOIfNecessary`, `NootRXMain::processKext`) and theorems about it.

Conventions of the embedding
* machine integers are `Nat`; a width is applied where the source has one that matters;
* a region of memory reached through a `char *` is a `List Nat` of bytes, and every byte
  after the end of the list reads as `0` (so a C string is its characters, the terminating
  NUL being the first byte after them);
* `PANIC`/`PANIC_COND` end the run: the result records the message and the state reached;
* the calls by which the routine changes something on the host (IOKit, Lilu), and the
  configuration reads of the enumeration, are recorded, in order, in the field `trace` of
  the state.
-/

namespace NootRX

/-! ## Memory and C strings -/

/-- The bytes of a string literal (the terminating NUL is the first byte after them). -/
def lit (s : String) : List Nat := s.toList.map Char.toNat

/-- The byte at offset `i` of a memory region. -/
def byteAt (mem : List Nat) (i : Nat) : Nat := mem.getD i 0

/-- The function `strlen`: the number of bytes before the first NUL. -/
def strlen (mem : List Nat) : Nat := (mem.takeWhile (fun b => b != 0)).length

/-- The `len` bytes a callee copies from `ptr + off`. -/
def readBytes (mem : List Nat) (off len : Nat) : List Nat :=
  (List.range len).map (fun i => byteAt mem (off + i))

/-- The function `strncmp(s1, s2, n)`: compares at most `n` bytes, stopping after a NUL. -/
def strncmp : List Nat → List Nat → Nat → Int
  | _, _, 0 => 0
  | s1, s2, n + 1 =>
    let c1 := s1.headD 0
    let c2 := s2.headD 0
    if c1 ≠ c2 then (c1 : Int) - (c2 : Int)
    else if c1 = 0 then 0
    else strncmp s1.tail s2.tail n

/-- The cast `static_cast<UInt32>(x)`. -/
def toUInt32 (x : Nat) : Nat := x % 2 ^ 32

/-- The difference `a - b` on `UInt32`. -/
def subUInt32 (a b : Nat) : Nat := (a + 2 ^ 32 - b % 2 ^ 32) % 2 ^ 32

/-! ## Host objects -/

/-- The PCI configuration registers the routine names. -/
inductive PCIConfigReg where
  | kIOPCIConfigVendorID
  | kIOPCIConfigDeviceID
  | kIOPCIConfigRevisionID
  | kIOPCIConfigBaseAddress5
  deriving DecidableEq, Repr

/-- An `IOMemoryMap`: what `getLength()` and `getVirtualAddress()` return. -/
structure IOMemoryMap where
  length : Nat
  virtualAddress : Nat
  deriving DecidableEq, Repr

/-- An `IOPCIDevice` node of the registry: the configuration registers the routine names,
the name, whether the node is published. `properties` holds the `setProperty` calls
received so far, oldest first; `memoryMaps` is what the node answers to a mapping request. -/
structure IOPCIDevice where
  vendorID : Nat
  deviceID : Nat
  revisionID : Nat
  name : String
  published : Bool
  baseAddress5 : Nat
  properties : List (String × List Nat)
  memoryMaps : List (PCIConfigReg × IOMemoryMap)
  deriving DecidableEq, Repr

/-- The `video` member of an entry of `videoExternal`. -/
inductive IORegistryEntry where
  | null
  | other (name : String)
  | pci (device : IOPCIDevice)
  deriving DecidableEq, Repr

/-- The cast `OSDynamicCast(IOPCIDevice, entry)`. -/
def OSDynamicCast_IOPCIDevice : IORegistryEntry → Option IOPCIDevice
  | .pci device => some device
  | _ => none

/-- The call `WIOKit::readPCIConfigValue(device, reg)`: the vendor and device identifiers
are 16-bit reads, the revision an 8-bit read, a base address a 32-bit read. -/
def readPCIConfigValue (device : IOPCIDevice) : PCIConfigReg → Nat
  | .kIOPCIConfigVendorID => device.vendorID % 2 ^ 16
  | .kIOPCIConfigDeviceID => device.deviceID % 2 ^ 16
  | .kIOPCIConfigRevisionID => device.revisionID % 2 ^ 8
  | .kIOPCIConfigBaseAddress5 => device.baseAddress5 % 2 ^ 32

/-- The call `device->getProperty(key)`: the value of the latest `setProperty` for `key`. -/
def IOPCIDevice.getProperty (device : IOPCIDevice) (key : String) : Option (List Nat) :=
  (device.properties.reverse.find? (fun p => p.1 == key)).map (fun p => p.2)

/-- The call `device->setProperty(key, bytes, length)`, `value` being the bytes copied. -/
def IOPCIDevice.setProperty (device : IOPCIDevice) (key : String) (value : List Nat) :
    IOPCIDevice :=
  { device with properties := device.properties ++ [(key, value)] }

/-- The call `WIOKit::renameDevice(device, name)`. -/
def renameDevice (device : IOPCIDevice) (name : String) : IOPCIDevice :=
  { device with name := name }

/-- The call `WIOKit::awaitPublishing(device)`. -/
def awaitPublishing (device : IOPCIDevice) : IOPCIDevice :=
  { device with published := true }

/-- The call `device->mapDeviceMemoryWithRegister(reg)`. -/
def IOPCIDevice.mapDeviceMemoryWithRegister (device : IOPCIDevice) (reg : PCIConfigReg) :
    Option IOMemoryMap :=
  (device.memoryMaps.find? (fun p => p.1 == reg)).map (fun p => p.2)

/-- The `DeviceInfo` object: the list of external video devices. -/
structure DeviceInfo where
  videoExternal : List IORegistryEntry
  deriving DecidableEq, Repr

/-- What `OSUnserializeXML` can yield, as far as the routine tells: an `OSArray` or not. -/
inductive OSObject where
  | array (drivers : List (List Nat))
  | other
  deriving DecidableEq, Repr

/-- The constants and queries of Lilu, IOKit and the sibling headers that
`NootRX.cpp` uses and does not define. -/
structure Lilu where
  /-- The value of `getKernelVersion()` -/
  kernelVersion : Nat
  /-- The constant `KernelVersion::Monterey` -/
  Monterey : Nat
  /-- The constant `WIOKit::VendorID::ATIAMD` -/
  ATIAMD : Nat
  /-- The result of `DeviceInfo::create()` -/
  createDeviceInfo : Option DeviceInfo
  /-- The function `getBranding(deviceId, pciRevision)` of `Model.hpp`: the memory of the name, or null -/
  getBranding : Nat → Nat → Option (List Nat)
  /-- The value of `lilu.getRunMode()` -/
  runMode : Nat
  /-- The constant `LiluAPI::RunningInstallerRecovery` -/
  RunningInstallerRecovery : Nat
  /-- The function `checkKernelArgument(arg)` -/
  checkKernelArgument : String → Bool
  /-- The function `getFWDescByName(name)`: the bytes of the resource -/
  getFWDescByName : String → List Nat
  /-- The function `OSUnserializeXML(buffer, size, &errStr)`: the object or null, and `errStr` -/
  OSUnserializeXML : List Nat → Option OSObject × Option String
  /-- The function `gIOCatalogue->addDrivers(drivers)` -/
  addDrivers : List (List Nat) → Bool

/-! ## The state of `NootRXMain` -/

/-- The enumeration `ChipType`. `Unknown` stands for any enumerator other than the four the routine assigns. -/
inductive ChipType where
  | Navi21
  | Navi22
  | Navi23
  | Navi24
  | Unknown
  deriving DecidableEq, Repr

/-- A call recorded in the trace: every call that changes something on the host, and the
configuration reads of the enumeration, which tell what entries it examined. The index of
a device is its position in `videoExternal`. -/
inductive Event where
  | processSwitchOff
  | readPCIConfigValue (index : Nat) (reg : PCIConfigReg)
  | renameDevice (index : Nat) (name : String)
  | awaitPublishing (index : Nat)
  | setProperty (key : String) (value : List Nat)
  | release (map : IOMemoryMap)
  | mapDeviceMemoryWithRegister (reg : PCIConfigReg)
  | syslog (msg : String)
  | deleteDeviceInfo
  | dyldProcessPatcher
  | addDrivers (drivers : List (List Nat))
  | releaseUnserialized
  deriving DecidableEq, Repr

/-- The members of `NootRXMain` that `NootRX.cpp` reads or writes, the node `GPU` points
to, and the calls made so far. -/
structure NootRXMain where
  GPU : Option IOPCIDevice
  deviceId : Nat
  pciRevision : Nat
  chipType : ChipType
  enumRevision : Nat
  rmmio : Option IOMemoryMap
  rmmioPtr : Nat
  revision : Nat
  trace : List Event
  deriving DecidableEq, Repr

/-- How a routine ends: it returns, it panics, or it dereferences a null pointer. -/
inductive Outcome (σ : Type) where
  | done (s : σ)
  | panic (msg : String) (s : σ)
  | nullDeref (s : σ)
  deriving DecidableEq, Repr

/-- Sequencing: the next step runs only when the previous one returned. -/
def Outcome.andThen {σ : Type} (o : Outcome σ) (f : σ → Outcome σ) : Outcome σ :=
  match o with
  | .done s => f s
  | .panic msg s => .panic msg s
  | .nullDeref s => .nullDeref s

/-- Records a call on the host. -/
def NootRXMain.emit (s : NootRXMain) (e : Event) : NootRXMain :=
  { s with trace := s.trace ++ [e] }

/-- The call `this->GPU->setProperty(key, value, length)`. -/
def gpuSetProperty (key : String) (value : List Nat) (s : NootRXMain) : Outcome NootRXMain :=
  match s.GPU with
  | none => .nullDeref s
  | some gpu =>
    .done { s with GPU := some (gpu.setProperty key value),
                   trace := s.trace ++ [.setProperty key value] }

/-! ## `NootRXMain::processPatcher` -/

/-- The format `"GFX%zu"` written by `snprintf` into `char name[256]`: at most 255
characters. -/
def snprintfGFX (ii : Nat) : String := String.mk (("GFX" ++ toString ii).toList.take 255)

/-- Lines 54-66: the loop over `devInfo->videoExternal`, from index `i` with counter `ii`;
the list is what remains from index `i` on. -/
def probeLoop (L : Lilu) : List IORegistryEntry → Nat → Nat → NootRXMain → NootRXMain
  | [], _, _, s => s
  | entry :: rest, i, ii, s =>
    match OSDynamicCast_IOPCIDevice entry with
    | none => probeLoop L rest (i + 1) ii s
    | some device =>
      let devid := readPCIConfigValue device .kIOPCIConfigDeviceID &&& 0xFF00
      let s := s.emit (.readPCIConfigValue i .kIOPCIConfigDeviceID)
      let vendor := readPCIConfigValue device .kIOPCIConfigVendorID
      let s := s.emit (.readPCIConfigValue i .kIOPCIConfigVendorID)
      if vendor = L.ATIAMD ∧ (devid = 0x7300 ∨ devid = 0x7400) then
        let name := snprintfGFX ii
        let device := renameDevice device name
        let s := s.emit (.renameDevice i name)
        let device := awaitPublishing device
        let s := s.emit (.awaitPublishing i)
        { s with GPU := some device }
      else probeLoop L rest (i + 1) ii s

/-- Lines 53-68: the loop, then `PANIC_COND(!this->GPU, ...)`. -/
def probe (L : Lilu) (devInfo : DeviceInfo) (s : NootRXMain) : Outcome NootRXMain :=
  let s := probeLoop L devInfo.videoExternal 0 0 s
  match s.GPU with
  | none => .panic "Failed to find GPU" s
  | some _ => .done s

/-- Lines 72-73: the identifiers are read from the node. -/
def readIdentity (s : NootRXMain) : Outcome NootRXMain :=
  match s.GPU with
  | none => .nullDeref s
  | some gpu =>
    .done { s with deviceId := readPCIConfigValue gpu .kIOPCIConfigDeviceID,
                   pciRevision := readPCIConfigValue gpu .kIOPCIConfigRevisionID }

/-- Line 80: the bytes handed over for `"ATY,DeviceName"`, `model + 14` for `len - 14`. -/
def deviceNameBytes (model : List Nat) : List Nat :=
  readBytes model 14 (subUInt32 (toUInt32 (strlen model + 1)) 14)

/-- Lines 74-82: the model properties, for a node without a `"model"` property. -/
def injectModel (L : Lilu) (s : NootRXMain) : Outcome NootRXMain :=
  match s.GPU with
  | none => .nullDeref s
  | some gpu =>
    match gpu.getProperty "model" with
    | some _ => .done s
    | none =>
      match L.getBranding s.deviceId s.pciRevision with
      | none => .done s
      | some model =>
        let len := toUInt32 (strlen model + 1)
        ((gpuSetProperty "model" (readBytes model 0 len) s).andThen
          (gpuSetProperty "ATY,FamilyName" (readBytes (lit "Radeon RX") 0 10))).andThen
          (gpuSetProperty "ATY,DeviceName" (deviceNameBytes model))

/-- Lines 84-125: the switch on `this->deviceId`. -/
def classify (L : Lilu) (s : NootRXMain) : Outcome NootRXMain :=
  let d := s.deviceId
  if (0x73A2 ≤ d ∧ d ≤ 0x73A3) ∨ d = 0x73A5 ∨ d = 0x73AB ∨ d = 0x73AF ∨ d = 0x73BF then
    .done { s with chipType := .Navi21, enumRevision := 0x28 }
  else if d = 0x73DF then
    if L.kernelVersion < L.Monterey then
      .panic "Unsupported macOS version; Navi 22 requires macOS Monterey or newer" s
    else .done { s with chipType := .Navi22, enumRevision := 0x32 }
  else if (0x73E0 ≤ d ∧ d ≤ 0x73E1) ∨ d = 0x73E3 ∨ d = 0x73EF ∨ d = 0x73FF then
    if L.kernelVersion < L.Monterey then
      .panic "Unsupported macOS version; Navi 23 requires macOS Monterey or newer" s
    else .done { s with chipType := .Navi23, enumRevision := 0x3C }
  else if (0x7421 ≤ d ∧ d ≤ 0x7423) ∨ d = 0x743F then
    if L.kernelVersion < L.Monterey then
      .panic "Unsupported macOS version; Navi 24 requires macOS Monterey or newer" s
    else .done { s with chipType := .Navi24, enumRevision := 0x46 }
  else .panic "Unknown device ID" s

/-- Lines 127-136: the name of the frame-buffer. -/
def nameFramebuffer (s : NootRXMain) : Outcome NootRXMain :=
  if s.chipType = .Navi21 then
    if s.pciRevision = 0xC1 ∨ s.pciRevision = 0xC3 then
      gpuSetProperty "@0,name" (readBytes (lit "ATY,Belknap") 0 12) s
    else
      gpuSetProperty "@0,name" (readBytes (lit "ATY,Carswell") 0 13) s
  else if s.chipType = .Navi23 then
    gpuSetProperty "@0,name" (readBytes (lit "ATY,Henbury") 0 12) s
  else .done s

/-- Lines 52-138: what runs when `DeviceInfo::create()` gave an object. -/
def identifyGPU (L : Lilu) (devInfo : DeviceInfo) (s : NootRXMain) : Outcome NootRXMain :=
  ((((((probe L devInfo (s.emit .processSwitchOff)).andThen
    (gpuSetProperty "built-in" [0x00])).andThen
    readIdentity).andThen
    (injectModel L)).andThen
    (classify L)).andThen
    nameFramebuffer).andThen
    (fun s => .done (s.emit .deleteDeviceInfo))

/-- Lines 142-158: the dyld patches and the registration of `Drivers.xml`. -/
def loadDrivers (L : Lilu) (s : NootRXMain) : Outcome NootRXMain :=
  let s := s.emit .dyldProcessPatcher
  if L.runMode &&& L.RunningInstallerRecovery ≠ 0 ∨ L.checkKernelArgument "-CKFBOnly" = true then
    .done s
  else
    let desc := L.getFWDescByName "Drivers.xml"
    let dataNull := desc ++ [0]
    match L.OSUnserializeXML dataNull with
    | (none, errStr) =>
      .panic ("Failed to unserialize Drivers.xml: " ++
        (match errStr with
         | some e => e
         | none => "<No additional information>")) s
    | (some dataUnserialized, _) =>
      match dataUnserialized with
      | .other => .panic "Failed to cast Drivers.xml data" s
      | .array drivers =>
        let s := s.emit (.addDrivers drivers)
        if L.addDrivers drivers = false then .panic "Failed to add drivers" s
        else .done (s.emit .releaseUnserialized)

/-- The routine `NootRXMain::processPatcher`. -/
def processPatcher (L : Lilu) (s : NootRXMain) : Outcome NootRXMain :=
  match L.createDeviceInfo with
  | some devInfo => (identifyGPU L devInfo s).andThen (loadDrivers L)
  | none => loadDrivers L (s.emit (.syslog "Failed to create DeviceInfo"))

/-! ## `NootRXMain::setRMMIOIfNecessary` -/

/-- Line 167: the revision taken from the value of register `0xD31`. -/
def revisionOf (v : Nat) : Nat := (v &&& 0xF000000) >>> 0x18

/-- The call `OSSafeReleaseNULL(this->rmmio)`. -/
def osSafeReleaseNULL (s : NootRXMain) : NootRXMain :=
  match s.rmmio with
  | none => s
  | some map => { s with rmmio := none, trace := s.trace ++ [.release map] }

/-- The condition `!this->rmmio || !this->rmmio->getLength()`. -/
def rmmioInvalid (s : NootRXMain) : Bool :=
  match s.rmmio with
  | none => true
  | some map => map.length == 0

/-- The routine `NootRXMain::setRMMIOIfNecessary`. `readReg32` is the member function of that name
(declared in `NootRX.hpp`), a `UInt32` read through the mapping the state holds. -/
def setRMMIOIfNecessary (readReg32 : NootRXMain → Nat → Nat) (s : NootRXMain) :
    Outcome NootRXMain :=
  if rmmioInvalid s then
    let s := osSafeReleaseNULL s
    match s.GPU with
    | none => .nullDeref s
    | some gpu =>
      let s := { s with rmmio := gpu.mapDeviceMemoryWithRegister .kIOPCIConfigBaseAddress5,
                        trace := s.trace ++ [.mapDeviceMemoryWithRegister .kIOPCIConfigBaseAddress5] }
      if rmmioInvalid s then .panic "Failed to map RMMIO" s
      else
        match s.rmmio with
        | none => .nullDeref s
        | some map =>
          let s := { s with rmmioPtr := map.virtualAddress }
          .done { s with revision := revisionOf (readReg32 s 0xD31 % 2 ^ 32) }
  else .done s

/-! ## `NootRXMain::processKext` -/

/-- A `LookupPatchPlus`: the kext, the bytes to find, the bytes to put, the count. -/
structure LookupPatchPlus where
  kext : String
  find : List Nat
  replace : List Nat
  count : Nat
  deriving DecidableEq, Repr

/-- The name of `kextAGDP`. -/
def kextAGDP : String := "com.apple.driver.AppleGraphicsDevicePolicy"

/-- The array `compatibleBoards`. -/
def compatibleBoards : List (List Nat) :=
  [lit "Mac-27AD2F918AE68F61", lit "Mac-7BA5B2D9E42DDD94"]

/-- Lines 178-180: whether the loop over `compatibleBoards` returns. -/
def boardIsCompatible (boardId : List Nat) : Bool :=
  compatibleBoards.any (fun board => strncmp board boardId 21 == 0)

/-- The array `kAGDPBoardIDKeyOriginal`, an array of 9 bytes. -/
def kAGDPBoardIDKeyOriginal : List Nat := readBytes (lit "board-id") 0 9

/-- The array `kAGDPBoardIDKeyPatched`, an array of 9 bytes. -/
def kAGDPBoardIDKeyPatched : List Nat := readBytes (lit "applehax") 0 9

/-- The array `patches` of line 184. -/
def patchesAGDP : List LookupPatchPlus :=
  [{ kext := kextAGDP, find := kAGDPBoardIDKeyOriginal, replace := kAGDPBoardIDKeyPatched,
     count := 1 }]

/-- What `processKext` calls and `NootRX.cpp` does not define; `P` is the state of the
patcher and of the loaded kexts, which each of them may change. -/
structure KextHooks (P : Type) where
  /-- The value of `kextAGDP.loadIndex` -/
  loadIndexAGDP : Nat
  /-- The string `BaseDeviceInfo::get().boardIdentifier` -/
  boardIdentifier : List Nat
  /-- The call `LookupPatchPlus::applyAll(patcher, patches, slide, size)` -/
  applyAll : List LookupPatchPlus → Nat → Nat → P → Bool × P
  /-- The call `x6000fb.processKext(patcher, id, slide, size)` -/
  x6000fb : Nat → Nat → Nat → P → Bool × P
  /-- The call `hwlibs.processKext(patcher, id, slide, size)` -/
  hwlibs : Nat → Nat → Nat → P → Bool × P
  /-- The call `x6000.processKext(patcher, id, slide, size)` -/
  x6000 : Nat → Nat → Nat → P → Bool × P

/-- The routine `NootRXMain::processKext`. -/
def processKext {P : Type} (H : KextHooks P) (id slide size : Nat) (patcher : P) : Outcome P :=
  if H.loadIndexAGDP = id then
    if boardIsCompatible H.boardIdentifier then .done patcher
    else
      match H.applyAll patchesAGDP slide size patcher with
      | (false, patcher) => .panic "Failed to apply AGDP patch" patcher
      | (true, patcher) => .done patcher
  else
    match H.x6000fb id slide size patcher with
    | (true, patcher) => .done patcher
    | (false, patcher) =>
      match H.hwlibs id slide size patcher with
      | (true, patcher) => .done patcher
      | (false, patcher) =>
        match H.x6000 id slide size patcher with
        | (_, patcher) => .done patcher

/-! ## The sets and predicates of the specification, and sample inputs -/

/-- The device ids documented for Navi 21. -/
def navi21Ids : List Nat := [0x73A2, 0x73A3, 0x73A5, 0x73AB, 0x73AF, 0x73BF]

/-- The device ids documented for Navi 22. -/
def navi22Ids : List Nat := [0x73DF]

/-- The device ids documented for Navi 23. -/
def navi23Ids : List Nat := [0x73E0, 0x73E1, 0x73E3, 0x73EF, 0x73FF]

/-- The device ids documented for Navi 24. -/
def navi24Ids : List Nat := [0x7421, 0x7422, 0x7423, 0x743F]

/-- The diagnostics of the three version gates. -/
def versionGateMessages : List String :=
  ["Unsupported macOS version; Navi 22 requires macOS Monterey or newer",
   "Unsupported macOS version; Navi 23 requires macOS Monterey or newer",
   "Unsupported macOS version; Navi 24 requires macOS Monterey or newer"]

/-- A host at Big Sur level. -/
def exampleLilu : Lilu :=
  { kernelVersion := 20, Monterey := 21, ATIAMD := 0x1002,
    createDeviceInfo := none,
    getBranding := fun _ _ => none,
    runMode := 0, RunningInstallerRecovery := 0,
    checkKernelArgument := fun _ => false,
    getFWDescByName := fun _ => [],
    OSUnserializeXML := fun _ => (some (.array []), none),
    addDrivers := fun _ => true }

/-- A freshly constructed `NootRXMain`. -/
def freshMain : NootRXMain :=
  { GPU := none, deviceId := 0, pciRevision := 0, chipType := .Unknown, enumRevision := 0,
    rmmio := none, rmmioPtr := 0, revision := 0, trace := [] }

/-- Whether an entry is a PCI device whose vendor id is ATI/AMD and whose device id masked
with 0xFF00 is 0x7300 or 0x7400. -/
def isTargetGPU (L : Lilu) : IORegistryEntry → Bool
  | .pci device =>
    decide (device.vendorID % 2 ^ 16 = L.ATIAMD ∧
      ((device.deviceID % 2 ^ 16) &&& 0xFF00 = 0x7300 ∨
       (device.deviceID % 2 ^ 16) &&& 0xFF00 = 0x7400))
  | _ => false

/-- The configuration reads made on the entries of a list that starts at index `i` when
every one of them is examined. -/
def readsOf : Nat → List IORegistryEntry → List Event
  | _, [] => []
  | i, .pci _ :: rest =>
    .readPCIConfigValue i .kIOPCIConfigDeviceID ::
      .readPCIConfigValue i .kIOPCIConfigVendorID :: readsOf (i + 1) rest
  | i, _ :: rest => readsOf (i + 1) rest

/-- The calls made on the device at index `i` when it is selected with counter `ii`. -/
def selectCalls (i ii : Nat) : List Event :=
  [.readPCIConfigValue i .kIOPCIConfigDeviceID, .readPCIConfigValue i .kIOPCIConfigVendorID,
   .renameDevice i (snprintfGFX ii), .awaitPublishing i]

/-- The name a call gives to a device, when the call is a renaming. -/
def Event.newName : Event → Option String
  | .renameDevice _ name => some name
  | _ => none

/-- A Navi 22 board. -/
def exampleNavi22 : IOPCIDevice :=
  { vendorID := 0x1002, deviceID := 0x73DF, revisionID := 0xC1, name := "display",
    published := false, baseAddress5 := 0, properties := [],
    memoryMaps := [(.kIOPCIConfigBaseAddress5, { length := 0x80000, virtualAddress := 0x1000 })] }

/-- A Navi 21 board. -/
def exampleNavi21 : IOPCIDevice :=
  { exampleNavi22 with deviceID := 0x73A5 }

/-- A device of another vendor. -/
def exampleForeign : IOPCIDevice :=
  { exampleNavi22 with vendorID := 0x10DE, deviceID := 0x2204 }

/-- The node the probe leaves in `GPU` when it selects `d`. -/
def selectedNode (d : IOPCIDevice) : IOPCIDevice :=
  awaitPublishing (renameDevice d (snprintfGFX 0))

/-- The properties lines 74-82 give to the node `gpu`, in the order they are set. -/
def modelProperties (L : Lilu) (gpu : IOPCIDevice) (deviceId pciRevision : Nat) :
    List (String × List Nat) :=
  match gpu.getProperty "model" with
  | some _ => []
  | none =>
    match L.getBranding deviceId pciRevision with
    | none => []
    | some model =>
      [("model", readBytes model 0 (toUInt32 (strlen model + 1))),
       ("ATY,FamilyName", readBytes (lit "Radeon RX") 0 10),
       ("ATY,DeviceName", deviceNameBytes model)]

/-- The properties set before the switch on the node selected from `d`. -/
def earlyProperties (L : Lilu) (d : IOPCIDevice) : List (String × List Nat) :=
  ("built-in", [0x00]) ::
    modelProperties L ((selectedNode d).setProperty "built-in" [0x00])
      (d.deviceID % 2 ^ 16) (d.revisionID % 2 ^ 8)

/-- The state in which the switch is entered when the probe, started in `s`, selects `d`
after the entries `pre`. -/
def stateAtSwitch (L : Lilu) (s : NootRXMain) (pre : List IORegistryEntry) (d : IOPCIDevice) :
    NootRXMain :=
  { s with
    GPU := some { selectedNode d with properties := d.properties ++ earlyProperties L d },
    deviceId := d.deviceID % 2 ^ 16,
    pciRevision := d.revisionID % 2 ^ 8,
    trace := s.trace ++ [.processSwitchOff] ++ readsOf 0 pre ++ selectCalls pre.length 0 ++
      (earlyProperties L d).map (fun p => Event.setProperty p.1 p.2) }

/-- The key of the property a call sets, when the call is a `setProperty`. -/
def Event.setKey : Event → Option String
  | .setProperty key _ => some key
  | _ => none

/-- A host below Monterey whose only external video device is a Navi 22 board. -/
def exampleNavi22Host : Lilu :=
  { exampleLilu with createDeviceInfo := some ⟨[.pci exampleNavi22]⟩ }

/-- The same host, with a naming collaborator that answers "AMD Radeon RX 6700 XT". -/
def exampleNavi22NamedHost : Lilu :=
  { exampleNavi22Host with getBranding := fun _ _ => some (lit "AMD Radeon RX 6700 XT") }

/-- The part of `model` that follows the leading string `lead`, when `model` starts with
it. -/
def dropLead : List Nat → List Nat → Option (List Nat)
  | [], model => some model
  | _ :: _, [] => none
  | a :: lead, b :: model => if a = b then dropLead lead model else none

/-- A host whose naming collaborator answers "Radeon RX 6600 XT". -/
def exampleShortNameHost : Lilu :=
  { exampleLilu with getBranding := fun _ _ => some (lit "Radeon RX 6600 XT") }

/-- A host whose naming collaborator answers "AMD Radeon RX 6600 XT". -/
def exampleNameHost : Lilu :=
  { exampleLilu with getBranding := fun _ _ => some (lit "AMD Radeon RX 6600 XT") }

/-- A state whose `GPU` is the Navi 22 board. -/
def exampleProbed : NootRXMain :=
  { freshMain with GPU := some exampleNavi22, deviceId := 0x73DF, pciRevision := 0xC1 }

/-- The state the Navi 22 board is in once its registers are mapped and register 0xD31
has read 0x13000000. -/
def exampleMapped : NootRXMain :=
  { exampleProbed with
    rmmio := some { length := 0x80000, virtualAddress := 0x1000 },
    rmmioPtr := 0x1000,
    revision := 3,
    trace := [.mapDeviceMemoryWithRegister .kIOPCIConfigBaseAddress5] }

/-- The C string a memory region holds: its bytes before the first NUL. -/
def cString (mem : List Nat) : List Nat := mem.takeWhile (fun b => b != 0)

/-- Hooks of a MacPro7,1 whose patch application fails. -/
def exampleMacProHooks : KextHooks (List Nat) :=
  { loadIndexAGDP := 7,
    boardIdentifier := lit "Mac-27AD2F918AE68F61",
    applyAll := fun _ _ _ p => (false, p),
    x6000fb := fun _ _ _ p => (false, p),
    hwlibs := fun _ _ _ p => (false, p),
    x6000 := fun _ _ _ p => (false, p) }

/-- Hooks of a board whose identifier extends that of the MacPro7,1 by one character. -/
def exampleOtherBoardHooks : KextHooks (List Nat) :=
  { exampleMacProHooks with boardIdentifier := lit "Mac-27AD2F918AE68F61X" }

/-! ## Theorems -/

theorem classify_navi21 (L : Lilu) (s : NootRXMain) (h : s.deviceId ∈ navi21Ids) :
    classify L s = .done { s with chipType := .Navi21, enumRevision := 0x28 } := by
  simp only [navi21Ids, List.mem_cons, List.mem_singleton, List.not_mem_nil, or_false] at h
  unfold classify
  rcases h with h | h | h | h | h | h <;> simp [h]

theorem classify_navi22 (L : Lilu) (s : NootRXMain) (h : s.deviceId ∈ navi22Ids) :
    classify L s =
      if L.kernelVersion < L.Monterey then
        .panic "Unsupported macOS version; Navi 22 requires macOS Monterey or newer" s
      else .done { s with chipType := .Navi22, enumRevision := 0x32 } := by
  simp only [navi22Ids, List.mem_cons, List.mem_singleton, List.not_mem_nil, or_false] at h
  unfold classify
  simp [h]

theorem classify_navi23 (L : Lilu) (s : NootRXMain) (h : s.deviceId ∈ navi23Ids) :
    classify L s =
      if L.kernelVersion < L.Monterey then
        .panic "Unsupported macOS version; Navi 23 requires macOS Monterey or newer" s
      else .done { s with chipType := .Navi23, enumRevision := 0x3C } := by
  simp only [navi23Ids, List.mem_cons, List.mem_singleton, List.not_mem_nil, or_false] at h
  unfold classify
  rcases h with h | h | h | h | h <;> simp [h]

theorem classify_navi24 (L : Lilu) (s : NootRXMain) (h : s.deviceId ∈ navi24Ids) :
    classify L s =
      if L.kernelVersion < L.Monterey then
        .panic "Unsupported macOS version; Navi 24 requires macOS Monterey or newer" s
      else .done { s with chipType := .Navi24, enumRevision := 0x46 } := by
  simp only [navi24Ids, List.mem_cons, List.mem_singleton, List.not_mem_nil, or_false] at h
  unfold classify
  rcases h with h | h | h | h <;> simp [h]

theorem classify_unknown (L : Lilu) (s : NootRXMain)
    (h : s.deviceId ∉ navi21Ids ++ navi22Ids ++ navi23Ids ++ navi24Ids) :
    classify L s = .panic "Unknown device ID" s := by
  simp only [navi21Ids, navi22Ids, navi23Ids, navi24Ids, List.mem_append, List.mem_cons,
    List.mem_singleton, List.not_mem_nil, or_false, not_or] at h
  unfold classify
  have h1 : ¬ ((0x73A2 ≤ s.deviceId ∧ s.deviceId ≤ 0x73A3) ∨ s.deviceId = 0x73A5 ∨
      s.deviceId = 0x73AB ∨ s.deviceId = 0x73AF ∨ s.deviceId = 0x73BF) := by omega
  have h2 : ¬ s.deviceId = 0x73DF := by omega
  have h3 : ¬ ((0x73E0 ≤ s.deviceId ∧ s.deviceId ≤ 0x73E1) ∨ s.deviceId = 0x73E3 ∨
      s.deviceId = 0x73EF ∨ s.deviceId = 0x73FF) := by omega
  have h4 : ¬ ((0x7421 ≤ s.deviceId ∧ s.deviceId ≤ 0x7423) ∨ s.deviceId = 0x743F) := by omega
  simp only [h1, h2, h3, h4, if_false]

/-- C1: on a host at or above the Monterey threshold the switch on the device id assigns
Navi21/0x28 to 0x73A2, 0x73A3, 0x73A5, 0x73AB, 0x73AF, 0x73BF, Navi22/0x32 to 0x73DF,
Navi23/0x3C to 0x73E0, 0x73E1, 0x73E3, 0x73EF, 0x73FF, Navi24/0x46 to 0x7421, 0x7422,
0x7423, 0x743F (the four sets being disjoint), and for every other device id it panics with
"Unknown device ID", the state (chip type and enumRevision included) left as it was. -/
theorem classify_at_or_above_monterey (L : Lilu) (s : NootRXMain)
    (hv : L.Monterey ≤ L.kernelVersion) :
    (s.deviceId ∈ navi21Ids →
      classify L s = .done { s with chipType := .Navi21, enumRevision := 0x28 }) ∧
    (s.deviceId ∈ navi22Ids →
      classify L s = .done { s with chipType := .Navi22, enumRevision := 0x32 }) ∧
    (s.deviceId ∈ navi23Ids →
      classify L s = .done { s with chipType := .Navi23, enumRevision := 0x3C }) ∧
    (s.deviceId ∈ navi24Ids →
      classify L s = .done { s with chipType := .Navi24, enumRevision := 0x46 }) ∧
    (s.deviceId ∉ navi21Ids ++ navi22Ids ++ navi23Ids ++ navi24Ids →
      classify L s = .panic "Unknown device ID" s) ∧
    (navi21Ids ++ navi22Ids ++ navi23Ids ++ navi24Ids).Nodup := by
  have hnot : ¬ L.kernelVersion < L.Monterey := Nat.not_lt.mpr hv
  refine ⟨classify_navi21 L s, fun h => ?_, fun h => ?_, fun h => ?_, classify_unknown L s,
    by decide⟩
  · rw [classify_navi22 L s h, if_neg hnot]
  · rw [classify_navi23 L s h, if_neg hnot]
  · rw [classify_navi24 L s h, if_neg hnot]

/-- Witness of C1: on a Monterey host the id 0x73E3 is classified Navi23 with 0x3C. -/
theorem classify_at_or_above_monterey_witness :
    classify { exampleLilu with kernelVersion := 21 } { freshMain with deviceId := 0x73E3 } =
      .done { freshMain with deviceId := 0x73E3, chipType := .Navi23, enumRevision := 0x3C } :=
  (classify_at_or_above_monterey { exampleLilu with kernelVersion := 21 }
    { freshMain with deviceId := 0x73E3 } (by decide)).2.2.1 (by decide)

theorem classify_gate_iff (L : Lilu) (s : NootRXMain)
    (hk : s.deviceId ∈ navi21Ids ++ navi22Ids ++ navi23Ids ++ navi24Ids) :
    ((∃ msg ∈ versionGateMessages, classify L s = .panic msg s) ↔
      (s.deviceId ∈ navi22Ids ++ navi23Ids ++ navi24Ids ∧ L.kernelVersion < L.Monterey)) ∧
    ((∃ msg s', classify L s = .panic msg s') ↔
      (s.deviceId ∈ navi22Ids ++ navi23Ids ++ navi24Ids ∧ L.kernelVersion < L.Monterey)) ∧
    (L.Monterey ≤ L.kernelVersion → ∃ s', classify L s = .done s') ∧
    (s.deviceId ∈ navi21Ids → ∃ s', classify L s = .done s') := by
  simp only [List.mem_append] at hk
  have hdis : s.deviceId ∈ navi21Ids → s.deviceId ∉ navi22Ids ++ navi23Ids ++ navi24Ids := by
    simp only [navi21Ids, navi22Ids, navi23Ids, navi24Ids, List.mem_append, List.mem_cons,
      List.mem_singleton, List.not_mem_nil, or_false]
    omega
  rcases hk with ((h | h) | h) | h
  · have hc := classify_navi21 L s h
    have hn := hdis h
    refine ⟨⟨?_, fun hh => absurd hh.1 hn⟩, ⟨?_, fun hh => absurd hh.1 hn⟩,
      fun _ => ⟨_, hc⟩, fun _ => ⟨_, hc⟩⟩
    · rintro ⟨msg, _, hm⟩
      rw [hc] at hm
      cases hm
    · rintro ⟨msg, s', hm⟩
      rw [hc] at hm
      cases hm
  · have hc := classify_navi22 L s h
    have hin : s.deviceId ∈ navi22Ids ++ navi23Ids ++ navi24Ids := by
      simp only [List.mem_append]; exact Or.inl (Or.inl h)
    have hn21 : s.deviceId ∉ navi21Ids := fun h21 => hdis h21 hin
    by_cases hv : L.kernelVersion < L.Monterey
    · rw [if_pos hv] at hc
      refine ⟨⟨fun _ => ⟨hin, hv⟩, fun _ => ⟨_, by simp [versionGateMessages], hc⟩⟩,
        ⟨fun _ => ⟨hin, hv⟩, fun _ => ⟨_, _, hc⟩⟩,
        fun hge => absurd hv (Nat.not_lt.mpr hge), fun h21 => absurd h21 hn21⟩
    · rw [if_neg hv] at hc
      refine ⟨⟨?_, fun hh => absurd hh.2 hv⟩, ⟨?_, fun hh => absurd hh.2 hv⟩,
        fun _ => ⟨_, hc⟩, fun _ => ⟨_, hc⟩⟩
      · rintro ⟨msg, _, hm⟩
        rw [hc] at hm
        cases hm
      · rintro ⟨msg, s', hm⟩
        rw [hc] at hm
        cases hm
  · have hc := classify_navi23 L s h
    have hin : s.deviceId ∈ navi22Ids ++ navi23Ids ++ navi24Ids := by
      simp only [List.mem_append]; exact Or.inl (Or.inr h)
    have hn21 : s.deviceId ∉ navi21Ids := fun h21 => hdis h21 hin
    by_cases hv : L.kernelVersion < L.Monterey
    · rw [if_pos hv] at hc
      refine ⟨⟨fun _ => ⟨hin, hv⟩, fun _ => ⟨_, by simp [versionGateMessages], hc⟩⟩,
        ⟨fun _ => ⟨hin, hv⟩, fun _ => ⟨_, _, hc⟩⟩,
        fun hge => absurd hv (Nat.not_lt.mpr hge), fun h21 => absurd h21 hn21⟩
    · rw [if_neg hv] at hc
      refine ⟨⟨?_, fun hh => absurd hh.2 hv⟩, ⟨?_, fun hh => absurd hh.2 hv⟩,
        fun _ => ⟨_, hc⟩, fun _ => ⟨_, hc⟩⟩
      · rintro ⟨msg, _, hm⟩
        rw [hc] at hm
        cases hm
      · rintro ⟨msg, s', hm⟩
        rw [hc] at hm
        cases hm
  · have hc := classify_navi24 L s h
    have hin : s.deviceId ∈ navi22Ids ++ navi23Ids ++ navi24Ids := by
      simp only [List.mem_append]; exact Or.inr h
    have hn21 : s.deviceId ∉ navi21Ids := fun h21 => hdis h21 hin
    by_cases hv : L.kernelVersion < L.Monterey
    · rw [if_pos hv] at hc
      refine ⟨⟨fun _ => ⟨hin, hv⟩, fun _ => ⟨_, by simp [versionGateMessages], hc⟩⟩,
        ⟨fun _ => ⟨hin, hv⟩, fun _ => ⟨_, _, hc⟩⟩,
        fun hge => absurd hv (Nat.not_lt.mpr hge), fun h21 => absurd h21 hn21⟩
    · rw [if_neg hv] at hc
      refine ⟨⟨?_, fun hh => absurd hh.2 hv⟩, ⟨?_, fun hh => absurd hh.2 hv⟩,
        fun _ => ⟨_, hc⟩, fun _ => ⟨_, hc⟩⟩
      · rintro ⟨msg, _, hm⟩
        rw [hc] at hm
        cases hm
      · rintro ⟨msg, s', hm⟩
        rw [hc] at hm
        cases hm

/-- C2: for a device id of the known sets, the switch panics with a version-gate
diagnostic exactly when the id is 0x73DF or a Navi23 or Navi24 id and the host version is
below Monterey (and it does not panic in any other way); the diagnostic is then that of
the family and the state is left as it was; at or above Monterey those ids are classified
Navi22/0x32, Navi23/0x3C, Navi24/0x46, and a Navi21 id is classified Navi21/0x28 at every
host version. -/
theorem classify_version_gate (L : Lilu) (s : NootRXMain)
    (hk : s.deviceId ∈ navi21Ids ++ navi22Ids ++ navi23Ids ++ navi24Ids) :
    ((∃ msg ∈ versionGateMessages, classify L s = .panic msg s) ↔
      (s.deviceId ∈ navi22Ids ++ navi23Ids ++ navi24Ids ∧ L.kernelVersion < L.Monterey)) ∧
    ((∃ msg s', classify L s = .panic msg s') ↔
      (s.deviceId ∈ navi22Ids ++ navi23Ids ++ navi24Ids ∧ L.kernelVersion < L.Monterey)) ∧
    (L.Monterey ≤ L.kernelVersion → ∃ s', classify L s = .done s') ∧
    (s.deviceId ∈ navi21Ids → ∃ s', classify L s = .done s') ∧
    (s.deviceId ∈ navi22Ids → L.kernelVersion < L.Monterey → classify L s =
      .panic "Unsupported macOS version; Navi 22 requires macOS Monterey or newer" s) ∧
    (s.deviceId ∈ navi23Ids → L.kernelVersion < L.Monterey → classify L s =
      .panic "Unsupported macOS version; Navi 23 requires macOS Monterey or newer" s) ∧
    (s.deviceId ∈ navi24Ids → L.kernelVersion < L.Monterey → classify L s =
      .panic "Unsupported macOS version; Navi 24 requires macOS Monterey or newer" s) ∧
    (s.deviceId ∈ navi22Ids → L.Monterey ≤ L.kernelVersion →
      classify L s = .done { s with chipType := .Navi22, enumRevision := 0x32 }) ∧
    (s.deviceId ∈ navi23Ids → L.Monterey ≤ L.kernelVersion →
      classify L s = .done { s with chipType := .Navi23, enumRevision := 0x3C }) ∧
    (s.deviceId ∈ navi24Ids → L.Monterey ≤ L.kernelVersion →
      classify L s = .done { s with chipType := .Navi24, enumRevision := 0x46 }) ∧
    (s.deviceId ∈ navi21Ids →
      classify L s = .done { s with chipType := .Navi21, enumRevision := 0x28 }) := by
  obtain ⟨h1, h2, h3, h4⟩ := classify_gate_iff L s hk
  refine ⟨h1, h2, h3, h4, fun h hv => ?_, fun h hv => ?_, fun h hv => ?_,
    fun h hv => ?_, fun h hv => ?_, fun h hv => ?_, classify_navi21 L s⟩
  · rw [classify_navi22 L s h, if_pos hv]
  · rw [classify_navi23 L s h, if_pos hv]
  · rw [classify_navi24 L s h, if_pos hv]
  · rw [classify_navi22 L s h, if_neg (Nat.not_lt.mpr hv)]
  · rw [classify_navi23 L s h, if_neg (Nat.not_lt.mpr hv)]
  · rw [classify_navi24 L s h, if_neg (Nat.not_lt.mpr hv)]

/-- Witness of C2: below Monterey the id 0x7422 stops at the Navi 24 version gate, at
Monterey it is classified Navi24 with 0x46, and the id 0x73BF is classified Navi21 with
0x28 below Monterey. -/
theorem classify_version_gate_witness :
    classify exampleLilu { freshMain with deviceId := 0x7422 } =
      .panic "Unsupported macOS version; Navi 24 requires macOS Monterey or newer"
        { freshMain with deviceId := 0x7422 } ∧
    classify { exampleLilu with kernelVersion := 21 } { freshMain with deviceId := 0x7422 } =
      .done { freshMain with deviceId := 0x7422, chipType := .Navi24, enumRevision := 0x46 } ∧
    classify exampleLilu { freshMain with deviceId := 0x73BF } =
      .done { freshMain with deviceId := 0x73BF, chipType := .Navi21, enumRevision := 0x28 } :=
  ⟨(classify_version_gate exampleLilu { freshMain with deviceId := 0x7422 }
      (by decide)).2.2.2.2.2.2.1 (by decide) (by decide),
   (classify_version_gate { exampleLilu with kernelVersion := 21 }
      { freshMain with deviceId := 0x7422 } (by decide)).2.2.2.2.2.2.2.2.2.1
      (by decide) (by decide),
   (classify_version_gate exampleLilu { freshMain with deviceId := 0x73BF }
      (by decide)).2.2.2.2.2.2.2.2.2.2 (by decide)⟩

theorem probeLoop_cons_other (L : Lilu) (e : IORegistryEntry) (rest : List IORegistryEntry)
    (i ii : Nat) (s : NootRXMain) (he : OSDynamicCast_IOPCIDevice e = none) :
    probeLoop L (e :: rest) i ii s = probeLoop L rest (i + 1) ii s := by
  rw [probeLoop]
  simp [he]

theorem probeLoop_cons_miss (L : Lilu) (d : IOPCIDevice) (rest : List IORegistryEntry)
    (i ii : Nat) (s : NootRXMain) (hd : isTargetGPU L (.pci d) = false) :
    probeLoop L (.pci d :: rest) i ii s =
      probeLoop L rest (i + 1) ii
        { s with trace := s.trace ++ [.readPCIConfigValue i .kIOPCIConfigDeviceID,
                                      .readPCIConfigValue i .kIOPCIConfigVendorID] } := by
  simp only [isTargetGPU, decide_eq_false_iff_not] at hd
  rw [probeLoop]
  simp only [OSDynamicCast_IOPCIDevice, readPCIConfigValue, NootRXMain.emit]
  rw [if_neg hd]
  simp

theorem probeLoop_hit (L : Lilu) (d : IOPCIDevice) (post : List IORegistryEntry)
    (i ii : Nat) (s : NootRXMain) (hd : isTargetGPU L (.pci d) = true) :
    probeLoop L (.pci d :: post) i ii s =
      { s with GPU := some (awaitPublishing (renameDevice d (snprintfGFX ii))),
               trace := s.trace ++ selectCalls i ii } := by
  simp only [isTargetGPU, decide_eq_true_eq] at hd
  rw [probeLoop]
  simp only [OSDynamicCast_IOPCIDevice, readPCIConfigValue, NootRXMain.emit]
  rw [if_pos hd]
  simp [selectCalls]

theorem probeLoop_skip (L : Lilu) (pre rest : List IORegistryEntry) :
    ∀ (i ii : Nat) (s : NootRXMain), (∀ e ∈ pre, isTargetGPU L e = false) →
      probeLoop L (pre ++ rest) i ii s =
        probeLoop L rest (i + pre.length) ii { s with trace := s.trace ++ readsOf i pre } := by
  induction pre with
  | nil => intro i ii s _; simp [readsOf]
  | cons e pre ih =>
    intro i ii s h
    have he := h e (List.mem_cons_self _ _)
    have hpre : ∀ x ∈ pre, isTargetGPU L x = false := fun x hx => h x (List.mem_cons_of_mem _ hx)
    rw [List.cons_append]
    cases e with
    | null =>
      rw [probeLoop_cons_other L .null _ i ii s rfl, ih (i + 1) ii s hpre]
      simp [readsOf, Nat.add_assoc, Nat.add_comm 1]
    | other n =>
      rw [probeLoop_cons_other L (.other n) _ i ii s rfl, ih (i + 1) ii s hpre]
      simp [readsOf, Nat.add_assoc, Nat.add_comm 1]
    | pci d =>
      rw [probeLoop_cons_miss L d _ i ii s he, ih (i + 1) ii _ hpre]
      simp [readsOf, Nat.add_assoc, Nat.add_comm 1]

theorem probeLoop_first (L : Lilu) (pre post : List IORegistryEntry) (d : IOPCIDevice)
    (i ii : Nat) (s : NootRXMain) (hpre : ∀ e ∈ pre, isTargetGPU L e = false)
    (hd : isTargetGPU L (.pci d) = true) :
    probeLoop L (pre ++ .pci d :: post) i ii s =
      { s with GPU := some (awaitPublishing (renameDevice d (snprintfGFX ii))),
               trace := s.trace ++ readsOf i pre ++ selectCalls (i + pre.length) ii } := by
  rw [probeLoop_skip L pre _ i ii s hpre, probeLoop_hit L d post _ ii _ hd]

theorem probeLoop_none (L : Lilu) (devs : List IORegistryEntry) (i ii : Nat) (s : NootRXMain)
    (h : ∀ e ∈ devs, isTargetGPU L e = false) :
    probeLoop L devs i ii s = { s with trace := s.trace ++ readsOf i devs } := by
  have := probeLoop_skip L devs [] i ii s h
  simpa [probeLoop] using this

theorem exists_first_target (L : Lilu) (devs : List IORegistryEntry)
    (h : ∃ e ∈ devs, isTargetGPU L e = true) :
    ∃ pre d post, devs = pre ++ .pci d :: post ∧ (∀ e ∈ pre, isTargetGPU L e = false) ∧
      isTargetGPU L (.pci d) = true := by
  induction devs with
  | nil => simp at h
  | cons e devs ih =>
    by_cases he : isTargetGPU L e = true
    · cases e with
      | null => simp [isTargetGPU] at he
      | other n => simp [isTargetGPU] at he
      | pci d => exact ⟨[], d, devs, rfl, by simp, he⟩
    · have h2 : ∃ x ∈ devs, isTargetGPU L x = true := by
        obtain ⟨x, hx, hxt⟩ := h
        rcases List.mem_cons.mp hx with rfl | hx
        · exact absurd hxt he
        · exact ⟨x, hx, hxt⟩
      obtain ⟨pre, d, post, rfl, hpre, hd⟩ := ih h2
      refine ⟨e :: pre, d, post, rfl, ?_, hd⟩
      intro x hx
      rcases List.mem_cons.mp hx with rfl | hx
      · simpa using he
      · exact hpre x hx

theorem readsOf_newName (pre : List IORegistryEntry) :
    ∀ i, (readsOf i pre).filterMap Event.newName = [] := by
  induction pre with
  | nil => intro i; simp [readsOf]
  | cons e pre ih =>
    intro i
    cases e <;> simp [readsOf, Event.newName, ih]

/-- C4: with `GPU` null on entry, the probe selects the first entry, in list order, that
is a PCI device of vendor ATI/AMD whose device id masked with 0xFF00 is 0x7300 or 0x7400:
`GPU` becomes that node, the calls made are the reads on the entries before it and the
reads, renaming and publishing of the node itself, and the run is the same as on the list
cut after it; a list without such an entry (the empty one included) gives the panic
"Failed to find GPU"; a list holding just one such device selects it. -/
theorem probe_first_match (L : Lilu) (s : NootRXMain) (hs : s.GPU = none) :
    (∀ pre d post, (∀ e ∈ pre, isTargetGPU L e = false) → isTargetGPU L (.pci d) = true →
      probe L ⟨pre ++ .pci d :: post⟩ s =
        .done { s with GPU := some (awaitPublishing (renameDevice d (snprintfGFX 0))),
                       trace := s.trace ++ readsOf 0 pre ++ selectCalls pre.length 0 } ∧
      probe L ⟨pre ++ .pci d :: post⟩ s = probe L ⟨pre ++ [.pci d]⟩ s) ∧
    (∀ devs, (∀ e ∈ devs, isTargetGPU L e = false) →
      probe L ⟨devs⟩ s =
        .panic "Failed to find GPU" { s with trace := s.trace ++ readsOf 0 devs }) ∧
    (∀ d, isTargetGPU L (.pci d) = true →
      probe L ⟨[.pci d]⟩ s =
        .done { s with GPU := some (awaitPublishing (renameDevice d (snprintfGFX 0))),
                       trace := s.trace ++ selectCalls 0 0 }) := by
  refine ⟨fun pre d post hpre hd => ?_, fun devs h => ?_, fun d hd => ?_⟩
  · have h1 := probeLoop_first L pre post d 0 0 s hpre hd
    have h2 := probeLoop_first L pre [] d 0 0 s hpre hd
    simp only [probe, h1, h2, Nat.zero_add, and_self]
  · simp only [probe, probeLoop_none L devs 0 0 s h, hs]
  · have h1 := probeLoop_first L [] [] d 0 0 s (by simp) hd
    simp only [List.nil_append] at h1
    simp [probe, h1, readsOf]

/-- Witness of C4: a foreign device, then a Navi 22 board, then a Navi 21 board. -/
theorem probe_first_match_witness :
    probe exampleLilu ⟨[.pci exampleForeign] ++ .pci exampleNavi22 :: [.pci exampleNavi21]⟩
        freshMain =
      probe exampleLilu ⟨[.pci exampleForeign] ++ [.pci exampleNavi22]⟩ freshMain :=
  ((probe_first_match exampleLilu freshMain rfl).1 [.pci exampleForeign] exampleNavi22
    [.pci exampleNavi21] (by decide) (by decide)).2

/-- C10: when the list holds a matching GPU, the node selected is named "GFX0" and the one
renaming made is to "GFX0", whatever precedes or follows the device; more generally a loop
entered with counter `ii` names the node from `ii`, so entries that do not match leave the
counter alone. -/
theorem probe_names_GFX0 (L : Lilu) (devs : List IORegistryEntry) (s : NootRXMain)
    (h : ∃ e ∈ devs, isTargetGPU L e = true) :
    (∃ s' d t, probe L ⟨devs⟩ s = .done s' ∧ s'.GPU = some d ∧ d.name = "GFX0" ∧
      s'.trace = s.trace ++ t ∧ t.filterMap Event.newName = ["GFX0"]) ∧
    (∀ i ii, ∃ d t, (probeLoop L devs i ii s).GPU = some d ∧ d.name = snprintfGFX ii ∧
      (probeLoop L devs i ii s).trace = s.trace ++ t ∧
      t.filterMap Event.newName = [snprintfGFX ii]) := by
  obtain ⟨pre, d, post, rfl, hpre, hd⟩ := exists_first_target L devs h
  have hname : snprintfGFX 0 = "GFX0" := by decide
  constructor
  · refine ⟨{ s with GPU := some (awaitPublishing (renameDevice d (snprintfGFX 0))),
                     trace := s.trace ++ readsOf 0 pre ++ selectCalls (0 + pre.length) 0 },
      awaitPublishing (renameDevice d (snprintfGFX 0)),
      readsOf 0 pre ++ selectCalls (0 + pre.length) 0, ?_, rfl, ?_, ?_, ?_⟩
    · simp only [probe, probeLoop_first L pre post d 0 0 s hpre hd]
    · simp [awaitPublishing, renameDevice, hname]
    · simp
    · simp [readsOf_newName, selectCalls, Event.newName, hname]
  · intro i ii
    refine ⟨awaitPublishing (renameDevice d (snprintfGFX ii)),
      readsOf i pre ++ selectCalls (i + pre.length) ii, ?_, ?_, ?_, ?_⟩
    · rw [probeLoop_first L pre post d i ii s hpre hd]
    · simp [awaitPublishing, renameDevice]
    · rw [probeLoop_first L pre post d i ii s hpre hd]
      simp
    · simp [readsOf_newName, selectCalls, Event.newName]

/-- Witness of C10: the Navi 21 board at the third place is named "GFX0". -/
theorem probe_names_GFX0_witness :
    ∃ s' d t, probe exampleLilu ⟨[.null, .pci exampleForeign, .pci exampleNavi21,
        .pci exampleNavi22]⟩ freshMain = .done s' ∧ s'.GPU = some d ∧ d.name = "GFX0" ∧
      s'.trace = freshMain.trace ++ t ∧ t.filterMap Event.newName = ["GFX0"] :=
  (probe_names_GFX0 exampleLilu [.null, .pci exampleForeign, .pci exampleNavi21,
    .pci exampleNavi22] freshMain ⟨.pci exampleNavi21, by decide, by decide⟩).1

theorem andThen_done {σ : Type} (s : σ) (f : σ → Outcome σ) :
    (Outcome.done s).andThen f = f s := rfl

theorem andThen_panic {σ : Type} (msg : String) (s : σ) (f : σ → Outcome σ) :
    (Outcome.panic msg s).andThen f = .panic msg s := rfl

theorem gpuSetProperty_some (key : String) (value : List Nat) (s : NootRXMain)
    (gpu : IOPCIDevice) (h : s.GPU = some gpu) :
    gpuSetProperty key value s =
      .done { s with GPU := some { gpu with properties := gpu.properties ++ [(key, value)] },
                     trace := s.trace ++ [.setProperty key value] } := by
  simp [gpuSetProperty, h, IOPCIDevice.setProperty]

theorem injectModel_some (L : Lilu) (s : NootRXMain) (gpu : IOPCIDevice) (h : s.GPU = some gpu) :
    injectModel L s =
      .done { s with
        GPU := some { gpu with properties :=
          gpu.properties ++ modelProperties L gpu s.deviceId s.pciRevision },
        trace := s.trace ++
          (modelProperties L gpu s.deviceId s.pciRevision).map
            (fun p => Event.setProperty p.1 p.2) } := by
  unfold injectModel modelProperties
  rw [h]
  cases hm : gpu.getProperty "model" with
  | some v =>
    simp only [hm]
    cases s
    cases gpu
    simp_all
  | none =>
    cases hb : L.getBranding s.deviceId s.pciRevision with
    | none =>
      simp only [hm, hb]
      cases s
      cases gpu
      simp_all
    | some model =>
      simp only [hm, hb]
      rw [gpuSetProperty_some _ _ s gpu h, andThen_done,
        gpuSetProperty_some _ _ _ _ rfl, andThen_done, gpuSetProperty_some _ _ _ _ rfl]
      simp

theorem probe_found (L : Lilu) (s : NootRXMain) (pre post : List IORegistryEntry)
    (d : IOPCIDevice) (hpre : ∀ e ∈ pre, isTargetGPU L e = false)
    (hd : isTargetGPU L (.pci d) = true) :
    probe L ⟨pre ++ .pci d :: post⟩ s =
      .done { s with GPU := some (selectedNode d),
                     trace := s.trace ++ readsOf 0 pre ++ selectCalls pre.length 0 } := by
  have h1 := probeLoop_first L pre post d 0 0 s hpre hd
  simp only [probe, h1, Nat.zero_add, selectedNode]

theorem identify_to_switch (L : Lilu) (s : NootRXMain) (pre post : List IORegistryEntry)
    (d : IOPCIDevice) (hpre : ∀ e ∈ pre, isTargetGPU L e = false)
    (hd : isTargetGPU L (.pci d) = true) :
    (((probe L ⟨pre ++ .pci d :: post⟩ (s.emit .processSwitchOff)).andThen
      (gpuSetProperty "built-in" [0x00])).andThen readIdentity).andThen (injectModel L) =
      .done (stateAtSwitch L s pre d) := by
  rw [probe_found L _ pre post d hpre hd, andThen_done, gpuSetProperty_some _ _ _ _ rfl,
    andThen_done]
  simp only [readIdentity, andThen_done]
  rw [injectModel_some L _ _ rfl]
  simp [stateAtSwitch, earlyProperties, NootRXMain.emit, selectedNode, awaitPublishing,
    renameDevice, readPCIConfigValue, IOPCIDevice.setProperty]

theorem getProperty_append_other (g : IOPCIDevice) (new : List (String × List Nat))
    (key : String) (h : ∀ p ∈ new, p.1 ≠ key) :
    ({ g with properties := g.properties ++ new } : IOPCIDevice).getProperty key =
      g.getProperty key := by
  have hnone : new.reverse.find? (fun p => p.1 == key) = none := by
    rw [List.find?_eq_none]
    intro p hp
    have := h p (List.mem_reverse.mp hp)
    simpa using this
  simp [IOPCIDevice.getProperty, List.reverse_append, hnone]

theorem getProperty_append_set (g : IOPCIDevice) (new : List (String × List Nat))
    (key : String) (value : List Nat) (h : ∀ p ∈ new, p.1 ≠ key) :
    ({ g with properties := g.properties ++ (key, value) :: new } : IOPCIDevice).getProperty key =
      some value := by
  have hnone : new.reverse.find? (fun p => p.1 == key) = none := by
    rw [List.find?_eq_none]
    intro p hp
    have := h p (List.mem_reverse.mp hp)
    simpa using this
  simp [IOPCIDevice.getProperty, List.reverse_append, hnone]

theorem modelProperties_keys (L : Lilu) (g : IOPCIDevice) (a b : Nat) :
    (modelProperties L g a b).map Prod.fst = [] ∨
    (modelProperties L g a b).map Prod.fst = ["model", "ATY,FamilyName", "ATY,DeviceName"] := by
  unfold modelProperties
  cases g.getProperty "model" with
  | some v => simp
  | none =>
    cases L.getBranding a b with
    | none => simp
    | some model => simp

theorem nameFramebuffer_set (s : NootRXMain) (gpu : IOPCIDevice) (hg : s.GPU = some gpu) :
    nameFramebuffer s =
      if s.chipType = .Navi21 then
        if s.pciRevision = 0xC1 ∨ s.pciRevision = 0xC3 then
          .done { s with GPU := some (gpu.setProperty "@0,name" (lit "ATY,Belknap" ++ [0])),
                         trace := s.trace ++ [.setProperty "@0,name" (lit "ATY,Belknap" ++ [0])] }
        else
          .done { s with GPU := some (gpu.setProperty "@0,name" (lit "ATY,Carswell" ++ [0])),
                         trace := s.trace ++ [.setProperty "@0,name" (lit "ATY,Carswell" ++ [0])] }
      else if s.chipType = .Navi23 then
        .done { s with GPU := some (gpu.setProperty "@0,name" (lit "ATY,Henbury" ++ [0])),
                       trace := s.trace ++ [.setProperty "@0,name" (lit "ATY,Henbury" ++ [0])] }
      else .done s := by
  have e1 : readBytes (lit "ATY,Belknap") 0 12 = lit "ATY,Belknap" ++ [0] := by decide
  have e2 : readBytes (lit "ATY,Carswell") 0 13 = lit "ATY,Carswell" ++ [0] := by decide
  have e3 : readBytes (lit "ATY,Henbury") 0 12 = lit "ATY,Henbury" ++ [0] := by decide
  unfold nameFramebuffer
  rw [e1, e2, e3]
  simp only [gpuSetProperty, hg]

theorem nameFramebuffer_belknap (s : NootRXMain) (gpu : IOPCIDevice) (hg : s.GPU = some gpu)
    (h21 : s.chipType = .Navi21) (hr : s.pciRevision = 0xC1 ∨ s.pciRevision = 0xC3) :
    nameFramebuffer s =
      .done { s with GPU := some (gpu.setProperty "@0,name" (lit "ATY,Belknap" ++ [0])),
                     trace := s.trace ++ [.setProperty "@0,name" (lit "ATY,Belknap" ++ [0])] } := by
  rw [nameFramebuffer_set s gpu hg, if_pos h21, if_pos hr]

theorem getProperty_setProperty (gpu : IOPCIDevice) (key : String) (value : List Nat) :
    (gpu.setProperty key value).getProperty key = some value := by
  simp [IOPCIDevice.getProperty, IOPCIDevice.setProperty, List.reverse_append]

/-- C3: with the node present, the alias step sets "@0,name" to "ATY,Belknap" for Navi21
with pciRevision 0xC1 or 0xC3, to "ATY,Carswell" for Navi21 with any other pciRevision, to
"ATY,Henbury" for Navi23 at every pciRevision (each value with its terminating NUL, and
read back by `getProperty`), and for Navi22 and Navi24 it changes nothing and makes no
call; and when the device selected has device id 0x73A5 and revision 0xC1 the run up to
the alias gives Navi21, enumRevision 0x28 and alias "ATY,Belknap" at every host version. -/
theorem frameBuffer_alias :
    (∀ (s : NootRXMain) (gpu : IOPCIDevice), s.GPU = some gpu →
      (s.chipType = .Navi21 → (s.pciRevision = 0xC1 ∨ s.pciRevision = 0xC3) →
        nameFramebuffer s =
          .done { s with GPU := some (gpu.setProperty "@0,name" (lit "ATY,Belknap" ++ [0])),
                         trace := s.trace ++ [.setProperty "@0,name" (lit "ATY,Belknap" ++ [0])] } ∧
        (gpu.setProperty "@0,name" (lit "ATY,Belknap" ++ [0])).getProperty "@0,name" =
          some (lit "ATY,Belknap" ++ [0])) ∧
      (s.chipType = .Navi21 → ¬ (s.pciRevision = 0xC1 ∨ s.pciRevision = 0xC3) →
        nameFramebuffer s =
          .done { s with GPU := some (gpu.setProperty "@0,name" (lit "ATY,Carswell" ++ [0])),
                         trace := s.trace ++ [.setProperty "@0,name" (lit "ATY,Carswell" ++ [0])] } ∧
        (gpu.setProperty "@0,name" (lit "ATY,Carswell" ++ [0])).getProperty "@0,name" =
          some (lit "ATY,Carswell" ++ [0])) ∧
      (s.chipType = .Navi23 →
        nameFramebuffer s =
          .done { s with GPU := some (gpu.setProperty "@0,name" (lit "ATY,Henbury" ++ [0])),
                         trace := s.trace ++ [.setProperty "@0,name" (lit "ATY,Henbury" ++ [0])] } ∧
        (gpu.setProperty "@0,name" (lit "ATY,Henbury" ++ [0])).getProperty "@0,name" =
          some (lit "ATY,Henbury" ++ [0])) ∧
      (s.chipType = .Navi22 ∨ s.chipType = .Navi24 → nameFramebuffer s = .done s)) ∧
    (∀ (L : Lilu) (s : NootRXMain) (pre post : List IORegistryEntry) (d : IOPCIDevice),
      (∀ e ∈ pre, isTargetGPU L e = false) → isTargetGPU L (.pci d) = true →
      d.deviceID % 2 ^ 16 = 0x73A5 → d.revisionID % 2 ^ 8 = 0xC1 →
      ∃ s' g, identifyGPU L ⟨pre ++ .pci d :: post⟩ s = .done s' ∧
        s'.chipType = .Navi21 ∧ s'.enumRevision = 0x28 ∧ s'.GPU = some g ∧
        g.getProperty "@0,name" = some (lit "ATY,Belknap" ++ [0])) := by
  constructor
  · intro s gpu hg
    have h := nameFramebuffer_set s gpu hg
    refine ⟨fun h21 hr => ⟨?_, getProperty_setProperty _ _ _⟩,
      fun h21 hr => ⟨?_, getProperty_setProperty _ _ _⟩,
      fun h23 => ⟨?_, getProperty_setProperty _ _ _⟩, fun h2224 => ?_⟩
    · exact nameFramebuffer_belknap s gpu hg h21 hr
    · rw [h, if_pos h21, if_neg hr]
    · rw [h, if_neg (by rw [h23]; decide), if_pos h23]
    · rcases h2224 with h' | h' <;> rw [h, if_neg (by rw [h']; decide), if_neg (by rw [h']; decide)]
  · intro L s pre post d hpre hd hid hrev
    have hsw := identify_to_switch L s pre post d hpre hd
    have hcl : classify L (stateAtSwitch L s pre d) =
        .done { stateAtSwitch L s pre d with chipType := .Navi21, enumRevision := 0x28 } :=
      classify_navi21 L _ (by
        rw [show (stateAtSwitch L s pre d).deviceId = 0x73A5 from hid]
        decide)
    have hnf := nameFramebuffer_belknap
      { stateAtSwitch L s pre d with chipType := .Navi21, enumRevision := 0x28 }
      { selectedNode d with properties := d.properties ++ earlyProperties L d } rfl rfl
      (Or.inl hrev)
    have hrun : identifyGPU L ⟨pre ++ .pci d :: post⟩ s =
        (nameFramebuffer
          { stateAtSwitch L s pre d with chipType := .Navi21, enumRevision := 0x28 }).andThen
          (fun s => .done (s.emit .deleteDeviceInfo)) := by
      unfold identifyGPU
      rw [hsw, andThen_done, hcl, andThen_done]
    rw [hnf, andThen_done] at hrun
    exact ⟨_, _, hrun, rfl, rfl, rfl, getProperty_setProperty _ "@0,name" _⟩

/-- Witness of C3: a Navi 21 board of revision 0xC1 behind a foreign device. -/
theorem frameBuffer_alias_witness :
    ∃ s' g, identifyGPU exampleLilu ⟨[.pci exampleForeign] ++ .pci exampleNavi21 :: []⟩
        freshMain = .done s' ∧
      s'.chipType = .Navi21 ∧ s'.enumRevision = 0x28 ∧ s'.GPU = some g ∧
      g.getProperty "@0,name" = some (lit "ATY,Belknap" ++ [0]) :=
  frameBuffer_alias.2 exampleLilu freshMain [.pci exampleForeign] [] exampleNavi21
    (by decide) (by decide) (by decide) (by decide)

theorem earlyProperties_keys (L : Lilu) (d : IOPCIDevice) :
    (earlyProperties L d).map Prod.fst = ["built-in"] ∨
    (earlyProperties L d).map Prod.fst =
      ["built-in", "model", "ATY,FamilyName", "ATY,DeviceName"] := by
  unfold earlyProperties
  rcases modelProperties_keys L ((selectedNode d).setProperty "built-in" [0x00])
    (d.deviceID % 2 ^ 16) (d.revisionID % 2 ^ 8) with h | h
  · left; simp only [List.map_cons, h]
  · right; simp only [List.map_cons, h]

theorem filterMap_setKey_map (props : List (String × List Nat)) :
    (props.map (fun p => Event.setProperty p.1 p.2)).filterMap Event.setKey =
      props.map Prod.fst := by
  induction props with
  | nil => rfl
  | cons p props ih => simp [Event.setKey, ih]

theorem readsOf_setKey (pre : List IORegistryEntry) :
    ∀ i, (readsOf i pre).filterMap Event.setKey = [] := by
  induction pre with
  | nil => intro i; simp [readsOf]
  | cons e pre ih =>
    intro i
    cases e <;> simp [readsOf, Event.setKey, ih]

/-- Counterexample to C6: on a host below Monterey whose GPU has device id 0x73DF the
routine halts with the Navi 22 diagnostic, and at that moment "built-in" is set on the
node. -/
theorem navi22_halt_sets_builtin :
    ∃ s' g, processPatcher exampleNavi22Host freshMain =
        .panic "Unsupported macOS version; Navi 22 requires macOS Monterey or newer" s' ∧
      s'.GPU = some g ∧ g.getProperty "built-in" = some [0x00] ∧
      s'.trace.filterMap Event.setKey = ["built-in"] :=
  ⟨_, _, rfl, rfl, by decide, by decide⟩

theorem getProperty_of_last (g : IOPCIDevice) (before : List (String × List Nat))
    (key : String) (value : List Nat) (after : List (String × List Nat))
    (hg : g.properties = before ++ (key, value) :: after) (h : ∀ p ∈ after, p.1 ≠ key) :
    g.getProperty key = some value := by
  have hnone : after.reverse.find? (fun p => p.1 == key) = none := by
    rw [List.find?_eq_none]
    intro p hp
    have := h p (List.mem_reverse.mp hp)
    simpa using this
  simp [IOPCIDevice.getProperty, hg, List.reverse_append, hnone]

theorem getProperty_model_after_builtin (d : IOPCIDevice) :
    ((selectedNode d).setProperty "built-in" [0x00]).getProperty "model" =
      d.getProperty "model" := by
  have hne : ("built-in" == "model") = false := by decide
  simp [IOPCIDevice.getProperty, IOPCIDevice.setProperty, selectedNode, awaitPublishing,
    renameDevice, List.reverse_append, hne]

/-- C6, amended: when the GPU selected has device id 0x73DF and the host version is below
Monterey, the routine halts with the Navi 22 diagnostic; at that moment "@0,name" has not
been set by the routine (the node answers for it what the device answered before) and the
chip type and enumRevision are untouched, while "built-in" has been set to a zero byte;
when the device had no "model" property and the naming collaborator returns a name for
(0x73DF, revision), "model", "ATY,FamilyName" and "ATY,DeviceName" have been set after
"built-in", in that order and with the values of lines 78-80; when the device had a "model"
property or the collaborator returns null, "built-in" is the only property set. -/
theorem navi22_halt_below_monterey (L : Lilu) (s : NootRXMain)
    (pre post : List IORegistryEntry) (d : IOPCIDevice)
    (hc : L.createDeviceInfo = some ⟨pre ++ .pci d :: post⟩)
    (hpre : ∀ e ∈ pre, isTargetGPU L e = false) (hd : isTargetGPU L (.pci d) = true)
    (hid : d.deviceID % 2 ^ 16 = 0x73DF) (hv : L.kernelVersion < L.Monterey) :
    ∃ s' g t, processPatcher L s =
        .panic "Unsupported macOS version; Navi 22 requires macOS Monterey or newer" s' ∧
      s'.GPU = some g ∧
      g.getProperty "built-in" = some [0x00] ∧
      g.getProperty "@0,name" = d.getProperty "@0,name" ∧
      s'.chipType = s.chipType ∧ s'.enumRevision = s.enumRevision ∧
      s'.trace = s.trace ++ t ∧
      (t.filterMap Event.setKey = ["built-in"] ∨
       t.filterMap Event.setKey = ["built-in", "model", "ATY,FamilyName", "ATY,DeviceName"]) ∧
      (∀ model, d.getProperty "model" = none →
        L.getBranding 0x73DF (d.revisionID % 2 ^ 8) = some model →
        g.properties = d.properties ++
          [("built-in", [0x00]),
           ("model", readBytes model 0 (toUInt32 (strlen model + 1))),
           ("ATY,FamilyName", lit "Radeon RX" ++ [0]),
           ("ATY,DeviceName", deviceNameBytes model)] ∧
        t.filterMap Event.setKey =
          ["built-in", "model", "ATY,FamilyName", "ATY,DeviceName"] ∧
        g.getProperty "model" = some (readBytes model 0 (toUInt32 (strlen model + 1))) ∧
        g.getProperty "ATY,FamilyName" = some (lit "Radeon RX" ++ [0]) ∧
        g.getProperty "ATY,DeviceName" = some (deviceNameBytes model)) ∧
      ((d.getProperty "model" ≠ none ∨
          L.getBranding 0x73DF (d.revisionID % 2 ^ 8) = none) →
        g.properties = d.properties ++ [("built-in", [0x00])] ∧
        t.filterMap Event.setKey = ["built-in"]) := by
  have hsw := identify_to_switch L s pre post d hpre hd
  have hcl : classify L (stateAtSwitch L s pre d) =
      .panic "Unsupported macOS version; Navi 22 requires macOS Monterey or newer"
        (stateAtSwitch L s pre d) := by
    rw [classify_navi22 L _ (by
      rw [show (stateAtSwitch L s pre d).deviceId = 0x73DF from hid]
      decide), if_pos hv]
  have hrun : processPatcher L s =
      .panic "Unsupported macOS version; Navi 22 requires macOS Monterey or newer"
        (stateAtSwitch L s pre d) := by
    unfold processPatcher
    rw [hc]
    simp only []
    unfold identifyGPU
    rw [hsw, andThen_done, hcl, andThen_panic, andThen_panic, andThen_panic]
  have hkeys := earlyProperties_keys L d
  have hmodel := modelProperties_keys L ((selectedNode d).setProperty "built-in" [0x00])
    (d.deviceID % 2 ^ 16) (d.revisionID % 2 ^ 8)
  have hnb : ∀ p ∈ modelProperties L ((selectedNode d).setProperty "built-in" [0x00])
      (d.deviceID % 2 ^ 16) (d.revisionID % 2 ^ 8), p.1 ≠ "built-in" := by
    intro p hp heq
    have hmem : p.1 ∈ (modelProperties L ((selectedNode d).setProperty "built-in" [0x00])
        (d.deviceID % 2 ^ 16) (d.revisionID % 2 ^ 8)).map Prod.fst := List.mem_map_of_mem _ hp
    rw [heq] at hmem
    rcases hmodel with h | h <;> rw [h] at hmem <;> revert hmem <;> decide
  have hna : ∀ p ∈ earlyProperties L d, p.1 ≠ "@0,name" := by
    intro p hp heq
    have hmem : p.1 ∈ (earlyProperties L d).map Prod.fst := List.mem_map_of_mem _ hp
    rw [heq] at hmem
    rcases hkeys with h | h <;> rw [h] at hmem <;> revert hmem <;> decide
  have htrace : ([Event.processSwitchOff] ++ readsOf 0 pre ++ selectCalls pre.length 0 ++
      (earlyProperties L d).map (fun p => Event.setProperty p.1 p.2)).filterMap Event.setKey =
      (earlyProperties L d).map Prod.fst := by
    simp only [List.filterMap_append, filterMap_setKey_map, readsOf_setKey]
    simp [selectCalls, Event.setKey]
  have hfam : readBytes (lit "Radeon RX") 0 10 = lit "Radeon RX" ++ [0] := by decide
  have hnamed : ∀ model, d.getProperty "model" = none →
      L.getBranding 0x73DF (d.revisionID % 2 ^ 8) = some model →
      earlyProperties L d =
        [("built-in", [0x00]),
         ("model", readBytes model 0 (toUInt32 (strlen model + 1))),
         ("ATY,FamilyName", lit "Radeon RX" ++ [0]),
         ("ATY,DeviceName", deviceNameBytes model)] := by
    intro model hnm hbr
    unfold earlyProperties modelProperties
    rw [getProperty_model_after_builtin, hnm, hid, hbr, hfam]
  have hplain : (d.getProperty "model" ≠ none ∨
      L.getBranding 0x73DF (d.revisionID % 2 ^ 8) = none) →
      earlyProperties L d = [("built-in", [0x00])] := by
    intro h
    unfold earlyProperties modelProperties
    rw [getProperty_model_after_builtin, hid]
    rcases h with h | h
    · cases hm : d.getProperty "model" with
      | none => exact absurd hm h
      | some v => rfl
    · rw [h]
      cases d.getProperty "model" <;> rfl
  refine ⟨stateAtSwitch L s pre d,
    { selectedNode d with properties := d.properties ++ earlyProperties L d },
    [.processSwitchOff] ++ readsOf 0 pre ++ selectCalls pre.length 0 ++
      (earlyProperties L d).map (fun p => Event.setProperty p.1 p.2),
    hrun, rfl, ?_, ?_, rfl, rfl, ?_, ?_, ?_, ?_⟩
  · exact getProperty_append_set (selectedNode d) _ "built-in" [0x00] hnb
  · exact getProperty_append_other (selectedNode d) (earlyProperties L d) "@0,name" hna
  · simp [stateAtSwitch, List.append_assoc]
  · rw [htrace]
    exact hkeys
  · intro model hnm hbr
    have he := hnamed model hnm hbr
    rw [htrace, he]
    refine ⟨rfl, rfl, ?_, ?_, ?_⟩
    · exact getProperty_of_last _ (d.properties ++ [("built-in", [0x00])]) "model" _
        [("ATY,FamilyName", lit "Radeon RX" ++ [0]), ("ATY,DeviceName", deviceNameBytes model)]
        (by simp) (by
          intro p hp
          simp only [List.mem_cons, List.mem_singleton, List.not_mem_nil, or_false] at hp
          rcases hp with rfl | rfl <;> simp)
    · exact getProperty_of_last _
        (d.properties ++ [("built-in", [0x00]),
          ("model", readBytes model 0 (toUInt32 (strlen model + 1)))])
        "ATY,FamilyName" _ [("ATY,DeviceName", deviceNameBytes model)]
        (by simp) (by
          intro p hp
          simp only [List.mem_cons, List.mem_singleton, List.not_mem_nil, or_false] at hp
          rw [hp]
          simp)
    · exact getProperty_of_last _
        (d.properties ++ [("built-in", [0x00]),
          ("model", readBytes model 0 (toUInt32 (strlen model + 1))),
          ("ATY,FamilyName", lit "Radeon RX" ++ [0])])
        "ATY,DeviceName" _ [] (by simp) (by simp)
  · intro h
    rw [htrace, hplain h]
    exact ⟨rfl, rfl⟩

/-- Witness of C6, amended: the Navi 22 board alone on a host below Monterey whose naming
collaborator answers "AMD Radeon RX 6700 XT": at the halt the four properties are set. -/
theorem navi22_halt_below_monterey_witness :
    ∃ s' g, processPatcher exampleNavi22NamedHost freshMain =
        .panic "Unsupported macOS version; Navi 22 requires macOS Monterey or newer" s' ∧
      s'.GPU = some g ∧
      g.getProperty "built-in" = some [0x00] ∧
      g.getProperty "@0,name" = none ∧
      s'.chipType = .Unknown ∧ s'.enumRevision = 0 ∧
      g.properties =
        [("built-in", [0x00]),
         ("model", lit "AMD Radeon RX 6700 XT" ++ [0]),
         ("ATY,FamilyName", lit "Radeon RX" ++ [0]),
         ("ATY,DeviceName", lit "6700 XT" ++ [0])] := by
  obtain ⟨s', g, t, hrun, hg, hb, ha, hct, her, _, _, hnamed, _⟩ :=
    navi22_halt_below_monterey exampleNavi22NamedHost freshMain [] [] exampleNavi22 rfl
      (by decide) (by decide) (by decide) (by decide)
  have hp := (hnamed (lit "AMD Radeon RX 6700 XT") (by decide) rfl).1
  refine ⟨s', g, hrun, hg, hb, ha, hct, her, ?_⟩
  rw [hp]
  decide

theorem strlen_of_no_nul (model : List Nat) (h : 0 ∉ model) : strlen model = model.length := by
  unfold strlen
  rw [List.takeWhile_eq_self_iff.mpr]
  intro b hb
  have : b ≠ 0 := fun hb0 => h (hb0 ▸ hb)
  simpa using this

theorem readBytes_tail (mem : List Nat) (off : Nat) (h : off ≤ mem.length) :
    readBytes mem off (mem.length + 1 - off) = mem.drop off ++ [0] := by
  apply List.ext_getElem
  · simp [readBytes]
    omega
  · intro i h1 h2
    simp only [readBytes, List.getElem_map, List.getElem_range, byteAt]
    by_cases hi : i < mem.length - off
    · rw [List.getElem_append_left (by simpa using hi)]
      simp [List.getD_eq_getElem?_getD, List.getElem?_eq_getElem (show off + i < mem.length by omega)]
    · have hlen : i = mem.length - off := by
        simp [readBytes] at h1
        omega
      rw [List.getElem_append_right (by simp; omega)]
      simp [List.getD_eq_getElem?_getD, List.getElem?_eq_none (show mem.length ≤ off + i by omega)]

theorem deviceNameBytes_eq (model : List Nat) (h0 : 0 ∉ model) (hlen : 14 ≤ model.length)
    (hmax : model.length + 1 < 2 ^ 32) :
    deviceNameBytes model = model.drop 14 ++ [0] := by
  unfold deviceNameBytes
  rw [strlen_of_no_nul model h0]
  have : subUInt32 (toUInt32 (model.length + 1)) 14 = model.length + 1 - 14 := by
    unfold subUInt32 toUInt32
    omega
  rw [this, readBytes_tail model 14 hlen]

theorem dropLead_drop (lead : List Nat) :
    ∀ (model rest : List Nat), dropLead lead model = some rest → model.drop lead.length = rest := by
  induction lead with
  | nil => intro model rest h; simpa [dropLead] using h
  | cons a lead ih =>
    intro model rest h
    cases model with
    | nil => simp [dropLead] at h
    | cons b model =>
      by_cases hab : a = b
      · simp only [dropLead, hab, if_true] at h
        simpa using ih model rest h
      · simp [dropLead, hab] at h

/-- Counterexample to C8: "Radeon RX " has 10 characters, not 14; for the well-formed
model string "Radeon RX 6600 XT" (17 characters) the part after "Radeon RX " is "6600 XT",
while the value set for "ATY,DeviceName" is " XT". -/
theorem deviceName_not_after_radeon_rx :
    (lit "Radeon RX ").length = 10 ∧
    15 ≤ (lit "Radeon RX 6600 XT").length ∧ 0 ∉ lit "Radeon RX 6600 XT" ∧
    dropLead (lit "Radeon RX ") (lit "Radeon RX 6600 XT") = some (lit "6600 XT") ∧
    ∃ s' g, injectModel exampleShortNameHost exampleProbed = .done s' ∧ s'.GPU = some g ∧
      g.getProperty "ATY,DeviceName" = some (lit " XT" ++ [0]) ∧
      g.getProperty "ATY,DeviceName" ≠ some (lit "6600 XT" ++ [0]) :=
  ⟨by decide, by decide, by decide, by decide, _, _, rfl, rfl, by decide, by decide⟩

/-- C8, amended: for a node without a "model" property and a model string without NUL of
at least 15 characters (and of a length that fits `UInt32`), the value set for
"ATY,DeviceName" is the model string without its first 14 characters, followed by the
terminating NUL; when the model string starts with the 14 characters "AMD Radeon RX " it
is what follows them. -/
theorem deviceName_after_14 (L : Lilu) (s : NootRXMain) (gpu : IOPCIDevice) (model : List Nat)
    (hg : s.GPU = some gpu) (hm : gpu.getProperty "model" = none)
    (hb : L.getBranding s.deviceId s.pciRevision = some model)
    (h0 : 0 ∉ model) (hlen : 15 ≤ model.length) (hmax : model.length + 1 < 2 ^ 32) :
    ∃ s' g, injectModel L s = .done s' ∧ s'.GPU = some g ∧
      g.getProperty "ATY,DeviceName" = some (model.drop 14 ++ [0]) ∧
      (lit "AMD Radeon RX ").length = 14 ∧
      (∀ rest, dropLead (lit "AMD Radeon RX ") model = some rest →
        g.getProperty "ATY,DeviceName" = some (rest ++ [0])) := by
  have hrun := injectModel_some L s gpu hg
  have hprops : modelProperties L gpu s.deviceId s.pciRevision =
      [("model", readBytes model 0 (toUInt32 (strlen model + 1))),
       ("ATY,FamilyName", readBytes (lit "Radeon RX") 0 10),
       ("ATY,DeviceName", deviceNameBytes model)] := by
    simp only [modelProperties, hm, hb]
  rw [hprops] at hrun
  have hval : ({ gpu with properties := gpu.properties ++
      [("model", readBytes model 0 (toUInt32 (strlen model + 1))),
       ("ATY,FamilyName", readBytes (lit "Radeon RX") 0 10),
       ("ATY,DeviceName", deviceNameBytes model)] } : IOPCIDevice).getProperty "ATY,DeviceName" =
      some (model.drop 14 ++ [0]) := by
    rw [← deviceNameBytes_eq model h0 (by omega) hmax]
    simp [IOPCIDevice.getProperty, List.reverse_append]
  refine ⟨_, _, hrun, rfl, hval, by decide, fun rest hrest => ?_⟩
  rw [hval]
  have := dropLead_drop _ model rest hrest
  rw [show (lit "AMD Radeon RX ").length = 14 by decide] at this
  rw [this]

/-- Witness of C8, amended: the model string "AMD Radeon RX 6600 XT" gives "6600 XT". -/
theorem deviceName_after_14_witness :
    ∃ s' g, injectModel exampleNameHost exampleProbed = .done s' ∧ s'.GPU = some g ∧
      g.getProperty "ATY,DeviceName" = some ((lit "AMD Radeon RX 6600 XT").drop 14 ++ [0]) ∧
      (lit "AMD Radeon RX ").length = 14 ∧
      (∀ rest, dropLead (lit "AMD Radeon RX ") (lit "AMD Radeon RX 6600 XT") = some rest →
        g.getProperty "ATY,DeviceName" = some (rest ++ [0])) :=
  deviceName_after_14 exampleNameHost exampleProbed exampleNavi22
    (lit "AMD Radeon RX 6600 XT") rfl (by decide) rfl (by decide) (by decide) (by decide)

theorem rmmioInvalid_congr (s t : NootRXMain) (h : s.rmmio = t.rmmio) :
    rmmioInvalid s = rmmioInvalid t := by
  simp [rmmioInvalid, h]

/-- C7: when a call of `setRMMIOIfNecessary` returns, the mapping it leaves is present with
non-zero length, and a second call made in the state it left returns that very state: no
call is added to the trace (no mapping requested, nothing released) and `rmmio`,
`rmmioPtr` and `revision` are as the first call left them, whatever register values the
second call would read. -/
theorem setRMMIOIfNecessary_idempotent (readReg32 readReg32' : NootRXMain → Nat → Nat)
    (s s1 : NootRXMain) (h : setRMMIOIfNecessary readReg32 s = .done s1) :
    rmmioInvalid s1 = false ∧ setRMMIOIfNecessary readReg32' s1 = .done s1 := by
  have hvalid : rmmioInvalid s1 = false := by
    unfold setRMMIOIfNecessary at h
    by_cases hinv : rmmioInvalid s = true
    · rw [if_pos hinv] at h
      simp only [] at h
      cases hg : (osSafeReleaseNULL s).GPU with
      | none => rw [hg] at h; cases h
      | some gpu =>
        rw [hg] at h
        simp only [] at h
        split at h
        · cases h
        · rename_i hv
          split at h
          · cases h
          · rename_i map hmap
            cases h
            simp only [Bool.not_eq_true] at hv
            rw [← hv]
            apply rmmioInvalid_congr
            rfl
    · rw [if_neg hinv] at h
      cases h
      simpa using hinv
  refine ⟨hvalid, ?_⟩
  unfold setRMMIOIfNecessary
  rw [if_neg (by simp [hvalid])]

/-- Witness of C7: the second call on the mapped Navi 22 board changes nothing. -/
theorem setRMMIOIfNecessary_idempotent_witness :
    rmmioInvalid exampleMapped = false ∧
      setRMMIOIfNecessary (fun _ _ => 0) exampleMapped = .done exampleMapped :=
  setRMMIOIfNecessary_idempotent (fun _ _ => 0x13000000) (fun _ _ => 0) exampleProbed
    exampleMapped (by decide)

theorem shiftRight_and (a b i : Nat) : (a &&& b) >>> i = (a >>> i) &&& (b >>> i) := by
  apply Nat.eq_of_testBit_eq
  intro j
  simp [Nat.testBit_shiftRight, Nat.testBit_and]

theorem revisionOf_eq (v : Nat) : revisionOf v = v / 2 ^ 24 % 16 := by
  unfold revisionOf
  rw [shiftRight_and, show (0xF000000 : Nat) >>> 0x18 = 2 ^ 4 - 1 by decide,
    Nat.and_pow_two_sub_one_eq_mod, Nat.shiftRight_eq_div_pow]

theorem setRMMIOIfNecessary_maps (readReg32 : NootRXMain → Nat → Nat) (s : NootRXMain)
    (gpu : IOPCIDevice) (map : IOMemoryMap) (hinv : rmmioInvalid s = true)
    (hg : s.GPU = some gpu)
    (hmap : gpu.mapDeviceMemoryWithRegister .kIOPCIConfigBaseAddress5 = some map)
    (hlen : map.length ≠ 0) :
    setRMMIOIfNecessary readReg32 s =
      .done { osSafeReleaseNULL s with
        rmmio := some map,
        rmmioPtr := map.virtualAddress,
        revision := revisionOf (readReg32
          { osSafeReleaseNULL s with
            rmmio := some map,
            rmmioPtr := map.virtualAddress,
            trace := (osSafeReleaseNULL s).trace ++
              [.mapDeviceMemoryWithRegister .kIOPCIConfigBaseAddress5] } 0xD31 % 2 ^ 32),
        trace := (osSafeReleaseNULL s).trace ++
          [.mapDeviceMemoryWithRegister .kIOPCIConfigBaseAddress5] } := by
  have hg' : (osSafeReleaseNULL s).GPU = some gpu := by
    unfold osSafeReleaseNULL
    cases s.rmmio <;> exact hg
  have hlen' : (map.length == 0) = false := by simpa using hlen
  unfold setRMMIOIfNecessary
  rw [if_pos hinv]
  simp only [hg', hmap, rmmioInvalid, hlen', Bool.false_eq_true, if_false]

theorem osSafeReleaseNULL_revision (s : NootRXMain) :
    (osSafeReleaseNULL s).revision = s.revision := by
  unfold osSafeReleaseNULL
  cases s.rmmio <;> rfl

/-- C9: the revision taken from a value `v` of register 0xD31 is `(v / 2^24) mod 16`, so it
is below 16, and it is the nibble `nib` of any value `lo + nib * 2^24 + hi * 2^28` with
`lo < 2^24`, whatever `lo` (bits 0-23) and `hi` (bits 28-31) are; and whenever
`setRMMIOIfNecessary` finds the mapping absent or of zero length and returns, the revision
it stores is `(v / 2^24) mod 16` for `v` the 32-bit value that `readReg32` gives for
register 0xD31 in the state reached just before the revision is stored (the new mapping
and `rmmioPtr` in place, the old revision still there); it does return when the node
answers the mapping request with a mapping of non-zero length. -/
theorem revision_bits_24_27 :
    (∀ v : Nat, revisionOf v = v / 2 ^ 24 % 16 ∧ revisionOf v < 16) ∧
    (∀ lo nib hi : Nat, lo < 2 ^ 24 → nib < 16 →
      revisionOf (lo + nib * 2 ^ 24 + hi * 2 ^ 28) = nib) ∧
    (∀ (readReg32 : NootRXMain → Nat → Nat) (s s' : NootRXMain), rmmioInvalid s = true →
      setRMMIOIfNecessary readReg32 s = .done s' →
      s'.revision = (readReg32 { s' with revision := s.revision } 0xD31 % 2 ^ 32) / 2 ^ 24 % 16 ∧
      s'.revision < 16) ∧
    (∀ (readReg32 : NootRXMain → Nat → Nat) (s : NootRXMain) (gpu : IOPCIDevice)
      (map : IOMemoryMap), rmmioInvalid s = true → s.GPU = some gpu →
      gpu.mapDeviceMemoryWithRegister .kIOPCIConfigBaseAddress5 = some map → map.length ≠ 0 →
      ∃ s', setRMMIOIfNecessary readReg32 s = .done s' ∧
        s'.rmmio = some map ∧ s'.rmmioPtr = map.virtualAddress ∧
        s'.revision =
          (readReg32 { s' with revision := s.revision } 0xD31 % 2 ^ 32) / 2 ^ 24 % 16) := by
  refine ⟨fun v => ⟨revisionOf_eq v, ?_⟩, fun lo nib hi hlo hnib => ?_, ?_, ?_⟩
  · rw [revisionOf_eq]
    exact Nat.mod_lt _ (by decide)
  · rw [revisionOf_eq]
    omega
  · intro readReg32 s s' hinv h
    unfold setRMMIOIfNecessary at h
    rw [if_pos hinv] at h
    simp only [] at h
    cases hg : (osSafeReleaseNULL s).GPU with
    | none => rw [hg] at h; cases h
    | some gpu =>
      rw [hg] at h
      simp only [] at h
      split at h
      · cases h
      · split at h
        · cases h
        · cases h
          refine ⟨?_, by rw [revisionOf_eq]; exact Nat.mod_lt _ (by decide)⟩
          simp only [← osSafeReleaseNULL_revision s]
          exact revisionOf_eq _
  · intro readReg32 s gpu map hinv hg hmap hlen
    refine ⟨_, setRMMIOIfNecessary_maps readReg32 s gpu map hinv hg hmap hlen, rfl, rfl, ?_⟩
    simp only [← osSafeReleaseNULL_revision s]
    exact revisionOf_eq _

/-- Witness of C9: the value 0x13ABCDEF gives revision 3, and the mapping call on the Navi
22 board, with register 0xD31 reading 0x13000000, stores revision 3. -/
theorem revision_bits_24_27_witness :
    revisionOf (0xABCDEF + 3 * 2 ^ 24 + 1 * 2 ^ 28) = 3 ∧
    (exampleMapped.revision = (0x13000000 % 2 ^ 32) / 2 ^ 24 % 16 ∧
      exampleMapped.revision < 16) ∧
    ∃ s', setRMMIOIfNecessary (fun _ _ => 0x13000000) exampleProbed = .done s' ∧
      s'.rmmio = some { length := 0x80000, virtualAddress := 0x1000 } ∧
      s'.rmmioPtr = 0x1000 ∧
      s'.revision = (0x13000000 % 2 ^ 32) / 2 ^ 24 % 16 :=
  ⟨revision_bits_24_27.2.1 0xABCDEF 3 1 (by decide) (by decide),
   revision_bits_24_27.2.2.1 (fun _ _ => 0x13000000) exampleProbed exampleMapped (by decide)
     (by decide),
   revision_bits_24_27.2.2.2 (fun _ _ => 0x13000000) exampleProbed exampleNavi22
     { length := 0x80000, virtualAddress := 0x1000 } (by decide) rfl (by decide) (by decide)⟩

theorem strncmp_eq_zero_iff (a : List Nat) :
    ∀ (b : List Nat) (n : Nat), 0 ∉ a → a.length < n →
      (strncmp a b n = 0 ↔ cString b = a) := by
  induction a with
  | nil =>
    intro b n _ hn
    obtain ⟨m, rfl⟩ : ∃ m, n = m + 1 := ⟨n - 1, by simp at hn; omega⟩
    cases b with
    | nil => simp [strncmp, cString]
    | cons y b =>
      by_cases hy : y = 0
      · simp [strncmp, cString, hy]
      · have hy' : (0 : Nat) ≠ y := fun h => hy h.symm
        simp [strncmp, cString, hy, hy']
  | cons x a ih =>
    intro b n h0 hn
    obtain ⟨m, rfl⟩ : ∃ m, n = m + 1 := ⟨n - 1, by simp at hn; omega⟩
    have hx : x ≠ 0 := fun h => h0 (by simp [h])
    have h0' : 0 ∉ a := fun h => h0 (List.mem_cons_of_mem _ h)
    have hm : a.length < m := by simp at hn; omega
    cases b with
    | nil =>
      have : (x : Int) ≠ 0 := by exact_mod_cast hx
      simp [strncmp, cString, hx, this]
    | cons y b =>
      by_cases hxy : x = y
      · subst hxy
        have := ih b m h0' hm
        simp [strncmp, hx, this, cString]
      · have hne : (x : Int) - (y : Int) ≠ 0 := by
          intro h
          apply hxy
          have : (x : Int) = (y : Int) := by omega
          exact_mod_cast this
        have hyx : ¬ y = x := fun h => hxy h.symm
        simp only [strncmp, List.headD_cons, ne_eq, hxy, not_false_eq_true, if_true, hne,
          false_iff, cString]
        by_cases hy : y = 0
        · simp [hy]
        · simp [hy, hyx]

theorem boardIsCompatible_iff (boardId : List Nat) :
    boardIsCompatible boardId = true ↔
      (cString boardId = lit "Mac-27AD2F918AE68F61" ∨
       cString boardId = lit "Mac-7BA5B2D9E42DDD94") := by
  have h1 := strncmp_eq_zero_iff (lit "Mac-27AD2F918AE68F61") boardId 21 (by decide) (by decide)
  have h2 := strncmp_eq_zero_iff (lit "Mac-7BA5B2D9E42DDD94") boardId 21 (by decide) (by decide)
  simp only [boardIsCompatible, compatibleBoards, List.any_cons, List.any_nil, Bool.or_false,
    Bool.or_eq_true, beq_iff_eq, h1, h2]

/-- C5: on the load event of AppleGraphicsDevicePolicy, when the board identifier is
"Mac-27AD2F918AE68F61" or "Mac-7BA5B2D9E42DDD94" the routine returns with the patcher
untouched and `applyAll` not called; for every other identifier (a longer or a shorter one
included) the outcome is that of `applyAll` on the one patch "board-id" to "applehax":
the routine returns when it succeeds and panics with "Failed to apply AGDP patch" when it
fails. -/
theorem processKext_AGDP {P : Type} (H : KextHooks P) (id slide size : Nat) (patcher : P)
    (hid : H.loadIndexAGDP = id) :
    ((cString H.boardIdentifier = lit "Mac-27AD2F918AE68F61" ∨
      cString H.boardIdentifier = lit "Mac-7BA5B2D9E42DDD94") →
      processKext H id slide size patcher = .done patcher) ∧
    (¬ (cString H.boardIdentifier = lit "Mac-27AD2F918AE68F61" ∨
        cString H.boardIdentifier = lit "Mac-7BA5B2D9E42DDD94") →
      patchesAGDP = [{ kext := "com.apple.driver.AppleGraphicsDevicePolicy",
                       find := lit "board-id" ++ [0], replace := lit "applehax" ++ [0],
                       count := 1 }] ∧
      (∀ p', H.applyAll patchesAGDP slide size patcher = (true, p') →
        processKext H id slide size patcher = .done p') ∧
      (∀ p', H.applyAll patchesAGDP slide size patcher = (false, p') →
        processKext H id slide size patcher = .panic "Failed to apply AGDP patch" p')) ∧
    (∀ c : Nat, c ≠ 0 →
      boardIsCompatible (lit "Mac-27AD2F918AE68F61" ++ [c]) = false ∧
      boardIsCompatible (lit "Mac-7BA5B2D9E42DDD94" ++ [c]) = false) ∧
    (∀ k : Nat, k < 20 →
      boardIsCompatible ((lit "Mac-27AD2F918AE68F61").take k) = false ∧
      boardIsCompatible ((lit "Mac-7BA5B2D9E42DDD94").take k) = false) := by
  refine ⟨fun hc => ?_, fun hn => ⟨by decide, fun p' hp => ?_, fun p' hp => ?_⟩, ?_, ?_⟩
  · unfold processKext
    rw [if_pos hid, if_pos ((boardIsCompatible_iff _).mpr hc)]
  · unfold processKext
    rw [if_pos hid, if_neg (fun h => hn ((boardIsCompatible_iff _).mp h)), hp]
  · unfold processKext
    rw [if_pos hid, if_neg (fun h => hn ((boardIsCompatible_iff _).mp h)), hp]
  · intro c hc
    have hc' : (c != 0) = true := by simpa using hc
    constructor
    · rw [Bool.eq_false_iff]
      intro h
      have := (boardIsCompatible_iff _).mp h
      revert this
      simp [cString, lit, List.takeWhile_cons, hc']
    · rw [Bool.eq_false_iff]
      intro h
      have := (boardIsCompatible_iff _).mp h
      revert this
      simp [cString, lit, List.takeWhile_cons, hc']
  · intro k hk
    interval_cases k <;> decide

/-- Witness of C5: an identifier one character longer than that of the MacPro7,1 has the
patch attempted, and its failure is fatal. -/
theorem processKext_AGDP_witness :
    processKext exampleOtherBoardHooks 7 0 0 [1, 2, 3] =
      .panic "Failed to apply AGDP patch" [1, 2, 3] :=
  ((processKext_AGDP exampleOtherBoardHooks 7 0 0 [1, 2, 3] rfl).2.1 (by decide)).2.2
    [1, 2, 3] rfl

end NootRX
